import Mathlib

/-!
Verification development for the lab-manager CLI (TypeScript source).

The definitions below are a shallow embedding of the repository's
lifecycle-orchestration code:

* `state.ts` (persisted `LabState` record and its update helpers),
* `commands/up.ts` / `commands/bootstrap.ts` / `commands/down.ts`
  (the three orchestrator commands),
* the per-component deploy/undeploy functions
  (`components/keycloak.ts`, `polaris.ts`, `trino.ts`, `spark.ts`, `opa.ts`),
* `utils/aws.ts` (`waitForEksClusterActive` polling loop).

External collaborators (terraform, helm, kubectl, aws CLI, psql) are modelled
by an `Env` record of oracle answers (does a helm release exist, does an
install succeed, ...) plus an `Event` trace recording every external call the
orchestrator makes, classified as mutating or read-only.  Disk persistence of
`LabState` (`saveState`) is modelled by collecting the list of snapshots
written, in order.
-/

namespace LabManager

/-- `bootstrap_outputs` captured from the bootstrap terraform stage (state.ts). -/
structure BootstrapOutputs where
  state_bucket : String
  state_lock_table : String
deriving Repr, DecidableEq

/-- `foundation_outputs` captured from the foundation terraform stage (state.ts). -/
structure FoundationOutputs where
  vpc_id : String
  private_subnet_ids : List String
  public_subnet_ids : List String
  aurora_cluster_endpoint : String
  aurora_cluster_reader_endpoint : String
  aurora_security_group_id : String
  aurora_secret_arn : String
  iam_policy_s3_arn : String
  data_bucket : String
  data_bucket_arn : String
  logs_bucket : String
  logs_bucket_arn : String
deriving Repr, DecidableEq

/-- `eks_outputs` captured from the ephemeral terraform stage (state.ts). -/
structure EksOutputs where
  cluster_name : String
  cluster_endpoint : String
  oidc_provider_arn : String
deriving Repr, DecidableEq

/-- Per-component record (`ComponentState` in state.ts).  All fields other
than `deployed` are optional in the source (`version?`, `namespace?`,
`release_name?`, `deployed_at?`).  `namespace` is a Lean keyword, hence the
trailing underscore. -/
structure ComponentState where
  deployed : Bool
  version : Option String := none
  namespace_ : Option String := none
  release_name : Option String := none
  deployed_at : Option String := none
deriving Repr, DecidableEq

/-- The `components` map of `LabState` (state.ts): one optional record per
known component name. -/
structure Components where
  keycloak : Option ComponentState := none
  polaris : Option ComponentState := none
  trino : Option ComponentState := none
  spark : Option ComponentState := none
  opa : Option ComponentState := none
deriving Repr, DecidableEq

/-- The persisted lifecycle record (`LabState` in state.ts). -/
structure LabState where
  version : String
  lab_name : String
  created_at : String
  updated_at : String
  bootstrapped : Bool
  bootstrap_outputs : Option BootstrapOutputs
  foundation_deployed : Bool
  foundation_outputs : Option FoundationOutputs
  eks_deployed : Bool
  eks_outputs : Option EksOutputs
  cluster_ready : Option Bool
  cluster_context : Option String
  essentials_deployed : Option Bool
  components : Components
deriving Repr, DecidableEq

/-- JavaScript truthiness of an optional boolean field (`state.cluster_ready`
is `boolean | undefined`; `undefined` is falsy). -/
def truthy (o : Option Bool) : Bool := o.getD false

/-- Look a component record up by its string name (the orchestrator indexes
`state.components` with string keys). -/
def getComponent (cs : Components) : String → Option ComponentState
  | "keycloak" => cs.keycloak
  | "polaris" => cs.polaris
  | "trino" => cs.trino
  | "spark" => cs.spark
  | "opa" => cs.opa
  | _ => none

/-- `state.components[component] = componentState` for a known component name
(unknown names cannot occur in the source because the key is typed). -/
def setComponent (cs : Components) (name : String) (c : ComponentState) : Components :=
  match name with
  | "keycloak" => { cs with keycloak := some c }
  | "polaris" => { cs with polaris := some c }
  | "trino" => { cs with trino := some c }
  | "spark" => { cs with spark := some c }
  | "opa" => { cs with opa := some c }
  | _ => cs

/-- `delete state.components[component]` for a known component name. -/
def removeComponent (cs : Components) (name : String) : Components :=
  match name with
  | "keycloak" => { cs with keycloak := none }
  | "polaris" => { cs with polaris := none }
  | "trino" => { cs with trino := none }
  | "spark" => { cs with spark := none }
  | "opa" => { cs with opa := none }
  | _ => cs

/-- `state.components?.<name>?.deployed` truthiness check. -/
def componentDeployed (cs : Components) (name : String) : Bool :=
  match getComponent cs name with
  | some c => c.deployed
  | none => false

/-- Result of a state.ts helper: the updated in-memory state plus the list of
snapshots it wrote to disk (each `saveState` call appends one snapshot). -/
structure Saved where
  state : LabState
  snaps : List LabState
deriving Repr

/-- `saveState` (state.ts): refreshes `updated_at` to the current time and
writes the full record to disk. -/
def saveState (now : String) (s : LabState) : Saved :=
  let s2 := { s with updated_at := now }
  { state := s2, snaps := [s2] }

/-- `updateBootstrapState` (state.ts). -/
def updateBootstrapState (now : String) (s : LabState) (outputs : BootstrapOutputs) : Saved :=
  saveState now { s with bootstrapped := true, bootstrap_outputs := some outputs }

/-- `updateFoundationState` (state.ts). -/
def updateFoundationState (now : String) (s : LabState) (outputs : FoundationOutputs) : Saved :=
  saveState now { s with foundation_deployed := true, foundation_outputs := some outputs }

/-- `updateEksState` (state.ts). -/
def updateEksState (now : String) (s : LabState) (outputs : EksOutputs) : Saved :=
  saveState now { s with eks_deployed := true, eks_outputs := some outputs }

/-- `updateClusterReadyState` (state.ts). -/
def updateClusterReadyState (now : String) (s : LabState) (contextName : String)
    (essentialsDeployed : Bool) : Saved :=
  saveState now { s with
    cluster_ready := some true
    cluster_context := some contextName
    essentials_deployed := some essentialsDeployed }

/-- `clearEphemeralState` (state.ts). -/
def clearEphemeralState (now : String) (s : LabState) : Saved :=
  saveState now { s with
    eks_deployed := false
    eks_outputs := none
    cluster_ready := some false
    cluster_context := none
    essentials_deployed := some false }

/-- `updateComponentState` (state.ts). -/
def updateComponentState (now : String) (s : LabState) (component : String)
    (componentState : ComponentState) : Saved :=
  saveState now { s with components := setComponent s.components component componentState }

/-- `clearComponentState` (state.ts). -/
def clearComponentState (now : String) (s : LabState) (component : String) : Saved :=
  saveState now { s with components := removeComponent s.components component }

/-- External calls the orchestrator makes (terraform / helm / kubectl / aws /
psql boundaries).  The argument strings identify the terraform module
directory, helm release, kubernetes namespace, etc. -/
inductive Event where
  | terraformInit (dir : String)
  | terraformPlan (dir : String)
  | terraformApply (dir : String)
  | terraformDestroy (dir : String)
  | terraformOutput (dir : String)
  | writeBackendConfig (dir : String)
  | helmRepoAdd (repo : String)
  | helmRepoUpdate
  | helmReleaseExists (release : String)
  | helmInstall (release : String)
  | helmUninstall (release : String)
  | kubectlCreateNamespace (ns : String)
  | kubectlDeleteNamespace (ns : String)
  | kubectlCreateSecret (secret : String)
  | kubectlGetSecret (secret : String)
  | kubectlDeleteResource (resource : String)
  | configureKubeconfig (ctx : String)
  | eksDescribeStatus
  | getNodeStatus
  | dbCreateDatabase (db : String)
  | awsCheckS3Bucket
  | awsCheckAurora
  | promptConfirm
  | promptConfirmDestructive
deriving Repr, DecidableEq

/-- Is this call mutating at the provisioner/deployment layer
(terraform apply or destroy, helm install or uninstall, kubectl
create/delete of namespaces, secrets or other resources, SQL DDL)?
Local-only side effects (writing a generated `backend.tf`, `terraform init`,
updating the local kubeconfig, helm repo bookkeeping) and pure reads are not
mutating. -/
def Event.mutating : Event → Bool
  | .terraformApply _ => true
  | .terraformDestroy _ => true
  | .helmInstall _ => true
  | .helmUninstall _ => true
  | .kubectlCreateNamespace _ => true
  | .kubectlDeleteNamespace _ => true
  | .kubectlCreateSecret _ => true
  | .kubectlDeleteResource _ => true
  | .dbCreateDatabase _ => true
  | _ => false

/-- Oracle answers of the external world: tool availability, helm release
existence, and whether each external attempt succeeds.  Abstracting an
attempt (for example a component deployment, which in the source is a
database create + namespace create + helm install + readiness poll) into a
single success bit is sound for the claims checked here: on failure the
source throws from inside the attempt and the orchestrator's `catch`
decides what happens next. -/
structure Env where
  now : String
  kubectlInstalled : Bool
  awsCliInstalled : Bool
  helmInstalled : Bool
  releaseExists : String → Bool
  installOk : String → Bool
  polarisChartFound : Bool
  eksApplyOk : Bool
  eksOutputs : EksOutputs
  clusterActiveOk : Bool
  nodesReadyOk : Bool
  secretExists : Bool
  undeployOk : String → Bool
  destroyEksOk : Bool
  destroyFoundationOk : Bool
  destroyBootstrapOk : Bool
  confirmAnswer : Bool
  confirmDestructiveAnswer : Bool
  bootstrapApplyOk : Bool
  bootstrapOutputs : BootstrapOutputs
  foundationApplyOk : Bool
  foundationOutputs : FoundationOutputs

/-- Result of one per-component deploy function: either the `ComponentState`
it returns, or the error it throws; plus the external calls it made. -/
structure DeployOut where
  result : Except String ComponentState
  events : List Event
deriving Repr

/-- `deployKeycloak` (components/keycloak.ts): skip when the helm release
already exists and not forced (returning a record without `deployed_at`),
otherwise create the keycloak database, add the bitnami repo, install the
chart and wait for readiness. -/
def deployKeycloak (env : Env) (force : Bool) : DeployOut :=
  if env.releaseExists "keycloak" && !force then
    { result := .ok { deployed := true, namespace_ := some "keycloak", release_name := some "keycloak" }
      events := [.helmReleaseExists "keycloak"] }
  else
    let attempt : List Event :=
      [.helmReleaseExists "keycloak", .dbCreateDatabase "keycloak",
       .helmRepoAdd "bitnami", .helmRepoUpdate, .helmInstall "keycloak"]
    if env.installOk "keycloak" then
      { result := .ok { deployed := true, namespace_ := some "keycloak", release_name := some "keycloak", deployed_at := some env.now }
        events := attempt }
    else
      { result := .error "Failed to deploy Keycloak", events := attempt }

/-- `deployPolaris` (components/polaris.ts): hard dependency check on the
keycloak record in `LabState`, then skip-if-exists; on a fresh attempt it
creates the polaris database and namespace, and if the polaris helm chart is
not found the install error is caught internally and a record with
`deployed := false` is returned instead of throwing. -/
def deployPolaris (env : Env) (state : LabState) (force : Bool) : DeployOut :=
  if !componentDeployed state.components "keycloak" then
    { result := .error "Keycloak must be deployed before Polaris", events := [] }
  else if env.releaseExists "polaris" && !force then
    { result := .ok { deployed := true, namespace_ := some "polaris", release_name := some "polaris" }
      events := [.helmReleaseExists "polaris"] }
  else
    let pre : List Event :=
      [.helmReleaseExists "polaris", .dbCreateDatabase "polaris",
       .kubectlCreateNamespace "polaris"]
    if state.foundation_outputs.isNone || state.eks_outputs.isNone then
      { result := .error "Foundation and EKS outputs not available", events := pre }
    else
      let attempt := pre ++ [.helmRepoAdd "polaris", .helmRepoUpdate, .helmInstall "polaris"]
      if !env.polarisChartFound then
        { result := .ok { deployed := false, namespace_ := some "polaris", release_name := some "polaris" }
          events := attempt }
      else if env.installOk "polaris" then
        { result := .ok { deployed := true, namespace_ := some "polaris", release_name := some "polaris", deployed_at := some env.now }
          events := attempt }
      else
        { result := .error "Failed to deploy Polaris", events := attempt }

/-- `deployTrino` (components/trino.ts): hard dependency check on the polaris
record in `LabState` before any external call, then skip-if-exists, then
namespace create + repo add + install + readiness wait. -/
def deployTrino (env : Env) (state : LabState) (force : Bool) : DeployOut :=
  if !componentDeployed state.components "polaris" then
    { result := .error "Polaris must be deployed before Trino", events := [] }
  else if env.releaseExists "trino" && !force then
    { result := .ok { deployed := true, namespace_ := some "trino", release_name := some "trino" }
      events := [.helmReleaseExists "trino"] }
  else
    let pre : List Event :=
      [.helmReleaseExists "trino", .kubectlCreateNamespace "trino",
       .helmRepoAdd "trino", .helmRepoUpdate]
    if state.foundation_outputs.isNone || state.eks_outputs.isNone then
      { result := .error "Foundation and EKS outputs not available", events := pre }
    else
      let attempt := pre ++ [.helmInstall "trino"]
      if env.installOk "trino" then
        { result := .ok { deployed := true, namespace_ := some "trino", release_name := some "trino", deployed_at := some env.now }
          events := attempt }
      else
        { result := .error "Failed to deploy Trino", events := attempt }

/-- `deploySpark` (components/keycloak.ts, second half of the file): polaris
is only a soft dependency (warning), then skip-if-exists, then namespace
create + repo add + install + readiness wait.  The release name is
`spark-operator`. -/
def deploySpark (env : Env) (force : Bool) : DeployOut :=
  if env.releaseExists "spark-operator" && !force then
    { result := .ok { deployed := true, namespace_ := some "spark", release_name := some "spark-operator" }
      events := [.helmReleaseExists "spark-operator"] }
  else
    let attempt : List Event :=
      [.helmReleaseExists "spark-operator", .kubectlCreateNamespace "spark",
       .helmRepoAdd "spark-operator", .helmRepoUpdate, .helmInstall "spark-operator"]
    if env.installOk "spark" then
      { result := .ok { deployed := true, namespace_ := some "spark", release_name := some "spark-operator", deployed_at := some env.now }
        events := attempt }
    else
      { result := .error "Failed to deploy Spark", events := attempt }

/-- `deployOpa` (components/opa.ts): keycloak is only a soft dependency
(warning), then skip-if-exists, then namespace create + policy config maps +
repo add + install + readiness wait. -/
def deployOpa (env : Env) (force : Bool) : DeployOut :=
  if env.releaseExists "opa" && !force then
    { result := .ok { deployed := true, namespace_ := some "opa", release_name := some "opa" }
      events := [.helmReleaseExists "opa"] }
  else
    let attempt : List Event :=
      [.helmReleaseExists "opa", .kubectlCreateNamespace "opa",
       .helmRepoAdd "opa", .helmRepoUpdate, .helmInstall "opa"]
    if env.installOk "opa" then
      { result := .ok { deployed := true, namespace_ := some "opa", release_name := some "opa", deployed_at := some env.now }
        events := attempt }
    else
      { result := .error "Failed to deploy OPA", events := attempt }

/-- Result of an orchestrator phase: the (possibly failed) resulting state,
the external calls made, and the state snapshots persisted to disk. -/
structure StepOut where
  result : Except String LabState
  events : List Event
  snaps : List LabState
deriving Repr

/-- Result of a phase that cannot fail (errors are caught and swallowed
inside). -/
structure SoftOut where
  state : LabState
  events : List Event
  snaps : List LabState
deriving Repr

/-- One catch-and-continue component step of `deployComponents` (up.ts): if
the component is in the deploy list, run its deploy function; on success
record the returned `ComponentState` via `updateComponentState` (which
persists), on error log and continue with the state unchanged. -/
def softDeployStep (env : Env) (state : LabState) (name : String) (run : Bool)
    (d : LabState → DeployOut) : SoftOut :=
  if run then
    let out := d state
    match out.result with
    | .ok cs =>
      let sv := updateComponentState env.now state name cs
      { state := sv.state, events := out.events, snaps := sv.snaps }
    | .error _ => { state := state, events := out.events, snaps := [] }
  else
    { state := state, events := [], snaps := [] }

/-- The polaris / trino / spark / opa part of `deployComponents` (up.ts):
deployed in that order, each failure caught and logged
("Continuing without ...") without aborting the remaining components. -/
def deployComponentsSoft (env : Env) (s0 : LabState) (toDeploy : List String)
    (force : Bool) : SoftOut :=
  let p := softDeployStep env s0 "polaris" (toDeploy.contains "polaris")
    (fun s => deployPolaris env s force)
  let t := softDeployStep env p.state "trino" (toDeploy.contains "trino")
    (fun s => deployTrino env s force)
  let sp := softDeployStep env t.state "spark" (toDeploy.contains "spark")
    (fun _ => deploySpark env force)
  let o := softDeployStep env sp.state "opa" (toDeploy.contains "opa")
    (fun _ => deployOpa env force)
  { state := o.state
    events := p.events ++ t.events ++ sp.events ++ o.events
    snaps := p.snaps ++ t.snaps ++ sp.snaps ++ o.snaps }

/-- ASCII lowercasing of one character (`c.toLowerCase()` on the ASCII
component names the CLI deals in). -/
def toLowerCaseChar (c : Char) : Char :=
  if 65 ≤ c.toNat && c.toNat ≤ 90 then Char.ofNat (c.toNat + 32) else c

/-- ASCII lowercasing of a string (`c.toLowerCase()`). -/
def toLowerCase (s : String) : String :=
  String.mk (s.data.map toLowerCaseChar)

/-- The component list `deployComponents` settles on (up.ts): all five with
`--all`, else the requested names filtered against the known set (the filter
lowercases only for the membership test and keeps the original spelling),
else the default core pair keycloak + polaris. -/
def componentsToDeploy (componentArgs : List String) (all : Bool) : List String :=
  let availableComponents := ["keycloak", "polaris", "trino", "spark", "opa"]
  if all then availableComponents
  else if componentArgs.length > 0 then
    componentArgs.filter (fun c => availableComponents.contains (toLowerCase c))
  else ["keycloak", "polaris"]

/-- `deployComponents` (up.ts): keycloak first — its failure is rethrown and
aborts the whole `up`; polaris, trino, spark and opa follow with failures
caught and logged. -/
def deployComponents (env : Env) (state0 : LabState) (componentArgs : List String)
    (all force : Bool) : StepOut :=
  let toDeploy := componentsToDeploy componentArgs all
  if toDeploy.isEmpty then
    { result := .ok state0, events := [], snaps := [] }
  else if toDeploy.contains "keycloak" then
    let d := deployKeycloak env force
    match d.result with
    | .error e => { result := .error e, events := d.events, snaps := [] }
    | .ok cs =>
      let sv := updateComponentState env.now state0 "keycloak" cs
      let rest := deployComponentsSoft env sv.state toDeploy force
      { result := .ok rest.state, events := d.events ++ rest.events,
        snaps := sv.snaps ++ rest.snaps }
  else
    let rest := deployComponentsSoft env state0 toDeploy force
    { result := .ok rest.state, events := rest.events, snaps := rest.snaps }

/-- `preFlightChecks` (up.ts): foundation must be deployed with bootstrap
outputs on record, kubectl and the AWS CLI must be installed, and helm too
unless components are skipped (a missing psql only warns). -/
def preFlightChecks (env : Env) (state : LabState) (skipComponents : Bool) :
    Except String Unit :=
  if !state.foundation_deployed || state.bootstrap_outputs.isNone then
    .error "Foundation not deployed. Run lab bootstrap first."
  else if !env.kubectlInstalled then .error "kubectl is not installed."
  else if !env.awsCliInstalled then .error "AWS CLI is not installed."
  else if !skipComponents && !env.helmInstalled then .error "Helm is not installed."
  else .ok ()

/-- `deployEks` (up.ts): generate the backend config, `terraform init`; in
dry-run mode only `terraform plan` and return the state unchanged; otherwise
`terraform apply`, read the outputs and persist them via `updateEksState`. -/
def deployEks (env : Env) (state : LabState) (dryRun : Bool) : StepOut :=
  let pre : List Event := [.writeBackendConfig "ephemeral", .terraformInit "ephemeral"]
  if dryRun then
    { result := .ok state, events := pre ++ [.terraformPlan "ephemeral"], snaps := [] }
  else if env.eksApplyOk then
    let sv := updateEksState env.now state env.eksOutputs
    { result := .ok sv.state
      events := pre ++ [.terraformApply "ephemeral", .terraformOutput "ephemeral"]
      snaps := sv.snaps }
  else
    { result := .error "terraform apply failed"
      events := pre ++ [.terraformApply "ephemeral"], snaps := [] }

/-- `waitForClusterReady` (up.ts): require the EKS outputs, poll the AWS
cluster status, configure the kubeconfig context, then poll node readiness.
The two polls are abstracted into their success bits. -/
def waitForClusterReadyStep (env : Env) (labName : String) (state : LabState) :
    Except String Unit × List Event :=
  if state.eks_outputs.isNone then
    (.error "EKS outputs not available", [])
  else if !env.clusterActiveOk then
    (.error "Timeout waiting for EKS cluster to become ACTIVE", [.eksDescribeStatus])
  else
    let ctx := labName ++ "-context"
    if !env.nodesReadyOk then
      (.error "Timeout waiting for cluster nodes to be ready",
       [.eksDescribeStatus, .configureKubeconfig ctx, .getNodeStatus])
    else
      (.ok (), [.eksDescribeStatus, .configureKubeconfig ctx, .getNodeStatus])

/-- `deployEssentials` (up.ts): require foundation outputs, create the four
component namespaces, and create the aurora credentials secret unless it
already exists. -/
def deployEssentials (env : Env) (state : LabState) : Except String Unit × List Event :=
  if state.foundation_outputs.isNone then
    (.error "Foundation outputs not available", [])
  else
    let nsEvents : List Event :=
      [.kubectlCreateNamespace "spark", .kubectlCreateNamespace "trino",
       .kubectlCreateNamespace "polaris", .kubectlCreateNamespace "keycloak"]
    if env.secretExists then
      (.ok (), nsEvents ++ [.kubectlGetSecret "aurora-credentials"])
    else
      (.ok (), nsEvents ++ [.kubectlGetSecret "aurora-credentials",
        .kubectlCreateSecret "aurora-credentials"])

/-- CLI options of `up` (up.ts). -/
structure UpOptions where
  dryRun : Bool := false
  all : Bool := false
  force : Bool := false
  skipEssentials : Bool := false
  skipComponents : Bool := false
deriving Repr, DecidableEq

/-- Outcome of a whole CLI command: process exit code, final in-memory state,
external calls made, and state snapshots persisted, in order.  An uncaught
error is printed and turns into `process.exit(1)`. -/
structure CmdResult where
  exitCode : Nat
  state : LabState
  events : List Event
  persisted : List LabState
deriving Repr

/-- Steps 5 and after of `up` (up.ts): deploy the requested components unless
skipped or in dry-run, then `saveState`, then print the summary (which reads
the node status when EKS outputs exist). -/
def upStep5 (env : Env) (s3 : LabState) (components : List String) (opts : UpOptions)
    (ev : List Event) (sn : List LabState) : CmdResult :=
  let summary : LabState → List Event := fun s =>
    if s.eks_outputs.isSome then [.getNodeStatus] else []
  if !opts.skipComponents && !opts.dryRun then
    let dc := deployComponents env s3 components opts.all opts.force
    match dc.result with
    | .error _ => { exitCode := 1, state := s3, events := ev ++ dc.events, persisted := sn ++ dc.snaps }
    | .ok s4 =>
      let sv := saveState env.now s4
      { exitCode := 0, state := sv.state
        events := ev ++ dc.events ++ summary sv.state
        persisted := sn ++ dc.snaps ++ sv.snaps }
  else
    let sv := saveState env.now s3
    { exitCode := 0, state := sv.state
      events := ev ++ summary sv.state
      persisted := sn ++ sv.snaps }

/-- Step 4 of `up` (up.ts): deploy essentials when not skipped and not yet
deployed (or forced), then mark `essentials_deployed` via
`updateClusterReadyState` with the recorded `cluster_context`. -/
def upStep4 (env : Env) (s2 : LabState) (components : List String) (opts : UpOptions)
    (ev : List Event) (sn : List LabState) : CmdResult :=
  if !opts.skipEssentials && (!truthy s2.essentials_deployed || opts.force) then
    match deployEssentials env s2 with
    | (.error _, e2) => { exitCode := 1, state := s2, events := ev ++ e2, persisted := sn }
    | (.ok _, e2) =>
      let ctx := s2.cluster_context.getD ""
      let sv := updateClusterReadyState env.now s2 ctx true
      upStep5 env sv.state components opts (ev ++ e2) (sn ++ sv.snaps)
  else
    upStep5 env s2 components opts ev sn

/-- Step 3 of `up` (up.ts): wait for cluster readiness and record it when the
cluster was just provisioned or is not yet marked ready. -/
def upStep3 (env : Env) (labName : String) (needsProvisioning : Bool) (s1 : LabState)
    (components : List String) (opts : UpOptions) (ev : List Event)
    (sn : List LabState) : CmdResult :=
  if needsProvisioning || !truthy s1.cluster_ready then
    match waitForClusterReadyStep env labName s1 with
    | (.error _, e1) => { exitCode := 1, state := s1, events := ev ++ e1, persisted := sn }
    | (.ok _, e1) =>
      let ctx := labName ++ "-context"
      let sv := updateClusterReadyState env.now s1 ctx false
      upStep4 env sv.state components opts (ev ++ e1) (sn ++ sv.snaps)
  else
    upStep4 env s1 components opts ev sn

/-- `up` (up.ts): pre-flight checks, provision EKS when needed (returning
right after the plan in dry-run mode), wait for readiness, deploy
essentials, deploy components, save the final state. -/
def up (env : Env) (labName : String) (state0 : LabState) (components : List String)
    (opts : UpOptions) : CmdResult :=
  match preFlightChecks env state0 opts.skipComponents with
  | .error _ => { exitCode := 1, state := state0, events := [], persisted := [] }
  | .ok _ =>
    let needsProvisioning := !state0.eks_deployed || opts.force
    if needsProvisioning then
      let ek := deployEks env state0 opts.dryRun
      match ek.result with
      | .error _ => { exitCode := 1, state := state0, events := ek.events, persisted := ek.snaps }
      | .ok s1 =>
        if opts.dryRun then
          { exitCode := 0, state := s1, events := ek.events, persisted := ek.snaps }
        else
          upStep3 env labName true s1 components opts ek.events ek.snaps
    else
      upStep3 env labName false state0 components opts [] []

/-- CLI options of `bootstrap` (bootstrap.ts). -/
structure BootstrapOptions where
  dryRun : Bool := false
  skipFoundation : Bool := false
  force : Bool := false
deriving Repr, DecidableEq

/-- `bootstrapStateBackend` (bootstrap.ts): `terraform init`; plan-only in
dry-run mode; otherwise apply, read outputs and persist via
`updateBootstrapState`. -/
def bootstrapStateBackend (env : Env) (state : LabState) (dryRun : Bool) : StepOut :=
  let pre : List Event := [.terraformInit "bootstrap"]
  if dryRun then
    { result := .ok state, events := pre ++ [.terraformPlan "bootstrap"], snaps := [] }
  else if env.bootstrapApplyOk then
    let sv := updateBootstrapState env.now state env.bootstrapOutputs
    { result := .ok sv.state
      events := pre ++ [.terraformApply "bootstrap", .terraformOutput "bootstrap"]
      snaps := sv.snaps }
  else
    { result := .error "terraform apply failed"
      events := pre ++ [.terraformApply "bootstrap"], snaps := [] }

/-- `deployFoundation` (bootstrap.ts): requires bootstrap outputs; generate
the backend config and `terraform init`; plan-only in dry-run mode; otherwise
apply, read outputs and persist via `updateFoundationState`. -/
def deployFoundation (env : Env) (state : LabState) (dryRun : Bool) : StepOut :=
  if state.bootstrap_outputs.isNone then
    { result := .error "Bootstrap not complete. Run bootstrap first.", events := [], snaps := [] }
  else
    let pre : List Event := [.writeBackendConfig "foundation", .terraformInit "foundation"]
    if dryRun then
      { result := .ok state, events := pre ++ [.terraformPlan "foundation"], snaps := [] }
    else if env.foundationApplyOk then
      let sv := updateFoundationState env.now state env.foundationOutputs
      { result := .ok sv.state
        events := pre ++ [.terraformApply "foundation", .terraformOutput "foundation"]
        snaps := sv.snaps }
    else
      { result := .error "terraform apply failed"
        events := pre ++ [.terraformApply "foundation"], snaps := [] }

/-- The foundation section plus final save of `bootstrap` (bootstrap.ts). -/
def bootstrapRest (env : Env) (s1 : LabState) (opts : BootstrapOptions)
    (ev : List Event) (sn : List LabState) : CmdResult :=
  if !opts.skipFoundation && !(s1.foundation_deployed && !opts.force) then
    let f := deployFoundation env s1 opts.dryRun
    match f.result with
    | .error _ => { exitCode := 1, state := s1, events := ev ++ f.events, persisted := sn ++ f.snaps }
    | .ok s2 =>
      if opts.dryRun then
        { exitCode := 0, state := s2, events := ev ++ f.events, persisted := sn ++ f.snaps }
      else
        let sv := saveState env.now s2
        { exitCode := 0, state := sv.state, events := ev ++ f.events,
          persisted := sn ++ f.snaps ++ sv.snaps }
  else
    if opts.dryRun then
      { exitCode := 0, state := s1, events := ev, persisted := sn }
    else
      let sv := saveState env.now s1
      { exitCode := 0, state := sv.state, events := ev, persisted := sn ++ sv.snaps }

/-- `bootstrap` (bootstrap.ts): when already bootstrapped and not forced, a
deployed foundation makes the whole command a no-op report; otherwise the
state backend is (re)provisioned, the foundation deployed unless skipped or
already present, and the final state saved unless in dry-run mode. -/
def bootstrap (env : Env) (state0 : LabState) (opts : BootstrapOptions) : CmdResult :=
  if state0.bootstrapped && !opts.force then
    if state0.foundation_deployed then
      { exitCode := 0, state := state0, events := [], persisted := [] }
    else
      bootstrapRest env state0 opts [] []
  else
    let b := bootstrapStateBackend env state0 opts.dryRun
    match b.result with
    | .error _ => { exitCode := 1, state := state0, events := b.events, persisted := b.snaps }
    | .ok s1 => bootstrapRest env s1 opts b.events b.snaps

/-- CLI options of `down` (down.ts). -/
structure DownOptions where
  force : Bool := false
  destroyFoundation : Bool := false
deriving Repr, DecidableEq

/-- One component branch of `undeployComponents` (down.ts): when the
component is recorded as deployed, attempt its undeploy (extra cleanup calls
first, then `helm uninstall`); on success clear its record (which persists),
on failure only warn. -/
def undeployStep (env : Env) (s : LabState) (name release : String)
    (extraEvents : List Event) (run : Bool) : SoftOut :=
  if run then
    if env.undeployOk name then
      let sv := clearComponentState env.now s name
      { state := sv.state, events := extraEvents ++ [.helmUninstall release], snaps := sv.snaps }
    else
      { state := s, events := extraEvents ++ [.helmUninstall release], snaps := [] }
  else
    { state := s, events := [], snaps := [] }

/-- `undeployComponents` (down.ts): opa, spark and trino form the first,
concurrent batch (three promises joined with `Promise.all`, each with its own
catch, here serialised in push order); polaris is undeployed only after the
whole batch completes, and keycloak only after polaris. -/
def undeployComponents (env : Env) (s0 : LabState) : SoftOut :=
  let o := undeployStep env s0 "opa" "opa" [.kubectlDeleteResource "opa-policies"]
    (componentDeployed s0.components "opa")
  let sp := undeployStep env o.state "spark" "spark-operator"
    [.kubectlDeleteResource "sparkapplications"] (componentDeployed s0.components "spark")
  let t := undeployStep env sp.state "trino" "trino" []
    (componentDeployed s0.components "trino")
  let p := undeployStep env t.state "polaris" "polaris" []
    (componentDeployed t.state.components "polaris")
  let k := undeployStep env p.state "keycloak" "keycloak" []
    (componentDeployed p.state.components "keycloak")
  { state := k.state
    events := o.events ++ sp.events ++ t.events ++ p.events ++ k.events
    snaps := o.snaps ++ sp.snaps ++ t.snaps ++ p.snaps ++ k.snaps }

/-- The batching structure of `undeployComponents` (down.ts), extracted for
the ordering claim: the promises pushed for the concurrent first batch, then
the strictly sequential later steps. -/
def undeployBatches (cs : Components) : List (List String) :=
  let batch1 :=
    (if componentDeployed cs "opa" then ["opa"] else []) ++
    (if componentDeployed cs "spark" then ["spark"] else []) ++
    (if componentDeployed cs "trino" then ["trino"] else [])
  (if batch1.isEmpty then [] else [batch1]) ++
  (if componentDeployed cs "polaris" then [["polaris"]] else []) ++
  (if componentDeployed cs "keycloak" then [["keycloak"]] else [])

/-- `gracefulShutdown` (down.ts): delete the spark and trino namespaces and
wait for termination. -/
def gracefulShutdownEvents : List Event :=
  [.kubectlDeleteNamespace "spark", .kubectlDeleteNamespace "trino"]

/-- `destroyEks` (down.ts): generate the backend config when bootstrap
outputs are on record, `terraform init`, `terraform destroy`. -/
def destroyEksStep (env : Env) (state : LabState) : Except String Unit × List Event :=
  let pre : List Event :=
    (if state.bootstrap_outputs.isSome then [.writeBackendConfig "ephemeral"] else []) ++
    [.terraformInit "ephemeral", .terraformDestroy "ephemeral"]
  if env.destroyEksOk then (.ok (), pre) else (.error "terraform destroy failed", pre)

/-- `verifyFoundationIntact` (down.ts): read-only checks of the S3 bucket and
the Aurora cluster, skipped when no foundation outputs are recorded. -/
def verifyFoundationEvents (state : LabState) : List Event :=
  if state.foundation_outputs.isNone then []
  else [.awsCheckS3Bucket, .awsCheckAurora]

/-- `destroyAll` (down.ts): destroy the ephemeral cluster, the foundation and
the bootstrap backend in that order (each only when its flag is set, each
failure aborting), then reset the whole record. -/
def destroyAll (env : Env) (s : LabState) : StepOut :=
  let ekEvents : List Event :=
    if s.eks_deployed then
      (if s.bootstrap_outputs.isSome then [.writeBackendConfig "ephemeral"] else []) ++
      [.terraformInit "ephemeral", .terraformDestroy "ephemeral"]
    else []
  if s.eks_deployed && !env.destroyEksOk then
    { result := .error "terraform destroy failed", events := ekEvents, snaps := [] }
  else
    let fEvents : List Event :=
      if s.foundation_deployed then
        (if s.bootstrap_outputs.isSome then [.writeBackendConfig "foundation"] else []) ++
        [.terraformInit "foundation", .terraformDestroy "foundation"]
      else []
    if s.foundation_deployed && !env.destroyFoundationOk then
      { result := .error "terraform destroy failed", events := ekEvents ++ fEvents, snaps := [] }
    else
      let bEvents : List Event :=
        if s.bootstrapped then [.terraformInit "bootstrap", .terraformDestroy "bootstrap"]
        else []
      if s.bootstrapped && !env.destroyBootstrapOk then
        { result := .error "terraform destroy failed", events := ekEvents ++ fEvents ++ bEvents,
          snaps := [] }
      else
        let s2 := { s with bootstrapped := false, bootstrap_outputs := none,
                           foundation_deployed := false, foundation_outputs := none }
        let c := clearEphemeralState env.now s2
        let sv := saveState env.now c.state
        { result := .ok sv.state, events := ekEvents ++ fEvents ++ bEvents,
          snaps := c.snaps ++ sv.snaps }

/-- `down` (down.ts): nothing to tear down when no EKS cluster is recorded
(immediate return, before even the destroy-foundation branch); the
destroy-foundation variant asks for typed confirmation then runs
`destroyAll`; the normal variant confirms unless forced, undeploys components
and shuts down workloads when the cluster is reachable, destroys the EKS
cluster, verifies the foundation and clears the ephemeral state. -/
def down (env : Env) (state0 : LabState) (opts : DownOptions) : CmdResult :=
  if !state0.eks_deployed then
    { exitCode := 0, state := state0, events := [], persisted := [] }
  else if opts.destroyFoundation then
    if !env.confirmDestructiveAnswer then
      { exitCode := 0, state := state0, events := [.promptConfirmDestructive], persisted := [] }
    else
      let d := destroyAll env state0
      match d.result with
      | .error _ =>
        { exitCode := 1, state := state0, events := [.promptConfirmDestructive] ++ d.events,
          persisted := d.snaps }
      | .ok s2 =>
        { exitCode := 0, state := s2, events := [.promptConfirmDestructive] ++ d.events,
          persisted := d.snaps }
  else if !opts.force && !env.confirmAnswer then
    { exitCode := 0, state := state0, events := [.promptConfirm], persisted := [] }
  else
    let confirmEv : List Event := if opts.force then [] else [.promptConfirm]
    let shutdown : SoftOut :=
      if env.kubectlInstalled && truthy state0.cluster_ready then
        let u := undeployComponents env state0
        { state := u.state, events := u.events ++ gracefulShutdownEvents, snaps := u.snaps }
      else
        { state := state0, events := [], snaps := [] }
    match destroyEksStep env shutdown.state with
    | (.error _, de) =>
      { exitCode := 1, state := shutdown.state
        events := confirmEv ++ shutdown.events ++ de, persisted := shutdown.snaps }
    | (.ok _, de) =>
      let verifyEv := verifyFoundationEvents shutdown.state
      let c := clearEphemeralState env.now shutdown.state
      let sv := saveState env.now c.state
      { exitCode := 0, state := sv.state
        events := confirmEv ++ shutdown.events ++ de ++ verifyEv
        persisted := shutdown.snaps ++ c.snaps ++ sv.snaps }

/-- Status reported by `aws eks describe-cluster` (utils/aws.ts,
`getEksClusterStatus`; `notFound` is the null return for a missing
cluster). -/
inductive EksStatus where
  | active
  | creating
  | failed
  | deleting
  | notFound
  | other (s : String)
deriving Repr, DecidableEq

/-- Outcome of a polling wait, together with the number of status checks the
loop performed. -/
inductive WaitResult where
  | ok (checks : Nat)
  | fatal (msg : String) (checks : Nat)
  | timedOut (msg : String) (checks : Nat)
deriving Repr, DecidableEq

/-- The timeout error text of `waitForEksClusterActive` (utils/aws.ts),
naming the elapsed bound. -/
def eksTimeoutMsg (timeoutMinutes : Nat) : String :=
  "Timeout waiting for EKS cluster to become ACTIVE after " ++
    toString timeoutMinutes ++ " minutes"

/-- The `while (Date.now() - startTime < timeoutMs)` loop of
`waitForEksClusterActive` (utils/aws.ts).  `status n` is the answer of the
n-th `getEksClusterStatus` call; checks are instantaneous and each iteration
then sleeps `pollInterval` milliseconds, so elapsed time advances by
`pollInterval` per iteration.  `fuel` bounds the recursion; the caller
supplies enough fuel for every iteration the guard can admit, so the fuel
case of exhaustion coincides with the guard-driven timeout. -/
def waitForEksClusterActiveLoop (status : Nat → EksStatus)
    (timeoutMs pollInterval timeoutMinutes : Nat) :
    Nat → Nat → Nat → WaitResult
  | _, checks, 0 => .timedOut (eksTimeoutMsg timeoutMinutes) checks
  | elapsed, checks, fuel + 1 =>
    if elapsed < timeoutMs then
      match status checks with
      | .active => .ok (checks + 1)
      | .failed => .fatal "EKS cluster is in FAILED state." (checks + 1)
      | .deleting => .fatal "EKS cluster is in DELETING state." (checks + 1)
      | _ =>
        waitForEksClusterActiveLoop status timeoutMs pollInterval timeoutMinutes
          (elapsed + pollInterval) (checks + 1) fuel
    else
      .timedOut (eksTimeoutMsg timeoutMinutes) checks

/-- `waitForEksClusterActive` (utils/aws.ts): poll the cluster status every
15 seconds until `ACTIVE`, a fatal `FAILED`/`DELETING` state, or
`timeoutMinutes * 60 * 1000` milliseconds have elapsed. -/
def waitForEksClusterActive (status : Nat → EksStatus) (timeoutMinutes : Nat) :
    WaitResult :=
  let timeoutMs := timeoutMinutes * 60 * 1000
  let pollInterval := 15000
  waitForEksClusterActiveLoop status timeoutMs pollInterval timeoutMinutes 0 0
    (timeoutMs / pollInterval + 1)

/-- File-system operations relevant to how `saveState` writes the record. -/
inductive FsOp where
  | writeFile (path : String) (content : String)
  | rename (src : String) (dst : String)
deriving Repr, DecidableEq

/-- The file-system trace of `saveState` (state.ts): a single `writeFileSync`
directly to the state file — no temporary file and no rename. -/
def saveStateFsOps (stateFile : String) (content : String) : List FsOp :=
  [.writeFile stateFile content]

/-- Modelled from the spec: the claimed all-or-nothing write discipline
("write-to-temp-then-rename").  An op sequence atomically replaces `target`
when no direct write ever touches `target` and the sequence ends with a
rename onto `target` (the only atomic way to change it). -/
def isAtomicReplace (ops : List FsOp) (target : String) : Bool :=
  (ops.all fun op =>
    match op with
    | .writeFile p _ => p != target
    | .rename _ _ => true) &&
  (match ops.getLast? with
   | some (.rename _ dst) => dst == target
   | _ => false)

/-- All prefixes of a string, shortest first (the possible partial contents a
direct write can leave behind when interrupted). -/
def stringPrefixes (s : String) : List String :=
  (List.range (s.length + 1)).map (fun i => s.take i)

/-- The possible contents of `target` if the process aborts somewhere during
the op sequence.  A direct write to `target` may be interrupted after any
prefix of the new content; an abort around a rename onto `target` is
conservatively modelled as leaving the old content (the renamed-in content is
not tracked — `saveState` performs no rename, so that case is unused
here). -/
def crashOutcomes (ops : List FsOp) (target : String) (old : String) : List String :=
  match ops with
  | [] => [old]
  | .writeFile p c :: rest =>
    if p == target then stringPrefixes c ++ crashOutcomes rest target c
    else crashOutcomes rest target old
  | .rename _ dst :: rest =>
    if dst == target then old :: crashOutcomes rest target old
    else crashOutcomes rest target old

/-- Number of status checks a polling wait performed. -/
def WaitResult.checks : WaitResult → Nat
  | .ok n => n
  | .fatal _ n => n
  | .timedOut _ n => n

/-- The phase-flag implication chain of the spec:
`clusterReady` implies `eksDeployed` implies `foundationDeployed` implies
`bootstrapped`. -/
def chainInv (s : LabState) : Bool :=
  (!truthy s.cluster_ready || s.eks_deployed) &&
  (!s.eks_deployed || s.foundation_deployed) &&
  (!s.foundation_deployed || s.bootstrapped)

/-- The `ComponentState` returned by a component deploy function on its
skip-if-exists path (no `deployed_at`, no `version`). -/
def skipRecord : String → ComponentState
  | "keycloak" => { deployed := true, namespace_ := some "keycloak", release_name := some "keycloak" }
  | "polaris" => { deployed := true, namespace_ := some "polaris", release_name := some "polaris" }
  | "trino" => { deployed := true, namespace_ := some "trino", release_name := some "trino" }
  | "spark" => { deployed := true, namespace_ := some "spark", release_name := some "spark-operator" }
  | "opa" => { deployed := true, namespace_ := some "opa", release_name := some "opa" }
  | _ => { deployed := false }

/-- The component map after a no-force `up` in which every requested
component's helm release already exists: each requested component's record is
replaced by its skip record, the others are untouched. -/
def applySkips (cs : Components) (toDeploy : List String) : Components :=
  { keycloak := if toDeploy.contains "keycloak" then some (skipRecord "keycloak") else cs.keycloak
    polaris := if toDeploy.contains "polaris" then some (skipRecord "polaris") else cs.polaris
    trino := if toDeploy.contains "trino" then some (skipRecord "trino") else cs.trino
    spark := if toDeploy.contains "spark" then some (skipRecord "spark") else cs.spark
    opa := if toDeploy.contains "opa" then some (skipRecord "opa") else cs.opa }

/-- The component map after `undeployComponents` when every attempted
undeploy succeeds: records of components marked deployed are removed, any
other record (absent, or present with `deployed := false`) is untouched. -/
def componentsAfterUndeploy (cs : Components) : Components :=
  { keycloak := if componentDeployed cs "keycloak" then none else cs.keycloak
    polaris := if componentDeployed cs "polaris" then none else cs.polaris
    trino := if componentDeployed cs "trino" then none else cs.trino
    spark := if componentDeployed cs "spark" then none else cs.spark
    opa := if componentDeployed cs "opa" then none else cs.opa }

/-! Concrete fixtures used by counterexamples and witnesses. -/

/-- Concrete bootstrap outputs. -/
def demoBootstrapOutputs : BootstrapOutputs :=
  { state_bucket := "demo-tf-state", state_lock_table := "demo-tf-locks" }

/-- Concrete foundation outputs. -/
def demoFoundationOutputs : FoundationOutputs :=
  { vpc_id := "vpc-1", private_subnet_ids := [], public_subnet_ids := [],
    aurora_cluster_endpoint := "aurora.demo", aurora_cluster_reader_endpoint := "aurora-ro.demo",
    aurora_security_group_id := "sg-1", aurora_secret_arn := "arn:secret",
    iam_policy_s3_arn := "arn:policy", data_bucket := "demo-data", data_bucket_arn := "arn:data",
    logs_bucket := "demo-logs", logs_bucket_arn := "arn:logs" }

/-- Concrete EKS outputs. -/
def demoEksOutputs : EksOutputs :=
  { cluster_name := "demo-eks", cluster_endpoint := "https://eks.demo",
    oidc_provider_arn := "arn:oidc" }

/-- An environment in which every tool is installed, no helm release exists
yet, and every external attempt succeeds. -/
def envAllOk : Env :=
  { now := "T1", kubectlInstalled := true, awsCliInstalled := true, helmInstalled := true,
    releaseExists := fun _ => false, installOk := fun _ => true, polarisChartFound := true,
    eksApplyOk := true, eksOutputs := demoEksOutputs, clusterActiveOk := true,
    nodesReadyOk := true, secretExists := false, undeployOk := fun _ => true,
    destroyEksOk := true, destroyFoundationOk := true, destroyBootstrapOk := true,
    confirmAnswer := true, confirmDestructiveAnswer := true, bootstrapApplyOk := true,
    bootstrapOutputs := demoBootstrapOutputs, foundationApplyOk := true,
    foundationOutputs := demoFoundationOutputs }

/-- The same environment at a later time, with every component's helm release
now existing — the world as a second identical `up` run sees it. -/
def envSecondRun : Env :=
  { envAllOk with releaseExists := fun _ => true, now := "T2" }

/-- An environment in which everything succeeds except the trino deployment
attempt. -/
def envTrinoFails : Env :=
  { envAllOk with installOk := fun c => c != "trino" }

/-- A freshly bootstrapped state: foundation deployed, no cluster yet. -/
def freshState : LabState :=
  { version := "1", lab_name := "demo", created_at := "T0", updated_at := "T0",
    bootstrapped := true, bootstrap_outputs := some demoBootstrapOutputs,
    foundation_deployed := true, foundation_outputs := some demoFoundationOutputs,
    eks_deployed := false, eks_outputs := none, cluster_ready := none,
    cluster_context := none, essentials_deployed := none, components := {} }

/-- The state after a fully successful default first `up` run on
`freshState`. -/
def afterFirstUp : LabState := (up envAllOk "demo" freshState [] {}).state

/-- A state whose cluster and essentials are up but with no component
deployed yet. -/
def clusterReadyState : LabState :=
  { freshState with
    eks_deployed := true
    eks_outputs := some demoEksOutputs
    cluster_ready := some true
    cluster_context := some "demo-context"
    essentials_deployed := some true
    updated_at := "T1" }

/-- A state with a deployed cluster that was never marked ready (for example
after a crash between the EKS apply checkpoint and the readiness wait), with
a keycloak record on file. -/
def unreadyClusterState : LabState :=
  { clusterReadyState with
    cluster_ready := some false
    components := { keycloak := some { deployed := true, namespace_ := some "keycloak", release_name := some "keycloak", deployed_at := some "T1" } } }

/-- A cluster-up state whose essentials are not yet deployed. -/
def noEssentialsState : LabState :=
  { clusterReadyState with essentials_deployed := some false }

/-- A state with keycloak, polaris, trino and opa all recorded as deployed
(spark absent). -/
def allDeployedState : LabState :=
  { clusterReadyState with
    components :=
      { keycloak := some { deployed := true, namespace_ := some "keycloak", release_name := some "keycloak", deployed_at := some "T1" }
        polaris := some { deployed := true, namespace_ := some "polaris", release_name := some "polaris", deployed_at := some "T1" }
        trino := some { deployed := true, namespace_ := some "trino", release_name := some "trino", deployed_at := some "T1" }
        opa := some { deployed := true, namespace_ := some "opa", release_name := some "opa", deployed_at := some "T1" } } }

/-- An environment in which every undeploy succeeds except trino's. -/
def envTrinoUndeployFails : Env :=
  { envAllOk with undeployOk := fun c => c != "trino" }

/-- Two states agreeing on every field other than `updated_at` and
`components` (the only fields component undeploys touch). -/
def sameNonComponentFields (a b : LabState) : Prop :=
  a.version = b.version ∧ a.lab_name = b.lab_name ∧ a.created_at = b.created_at ∧
  a.bootstrapped = b.bootstrapped ∧ a.bootstrap_outputs = b.bootstrap_outputs ∧
  a.foundation_deployed = b.foundation_deployed ∧ a.foundation_outputs = b.foundation_outputs ∧
  a.eks_deployed = b.eks_deployed ∧ a.eks_outputs = b.eks_outputs ∧
  a.cluster_ready = b.cluster_ready ∧ a.cluster_context = b.cluster_context ∧
  a.essentials_deployed = b.essentials_deployed

/-! ## Theorems -/

/-- C9: a readiness-polling wait invoked with `timeout = 0` against a check
that never reports ready fails immediately with a timeout error naming the
elapsed bound (0 minutes), performing at most one check invocation (in fact
zero: the `while` guard fails before the first `getEksClusterStatus`
call). -/
theorem pollTimeoutZero_failsImmediately (status : Nat → EksStatus)
    (_hnever : ∀ n, status n ≠ .active) :
    waitForEksClusterActive status 0 = .timedOut (eksTimeoutMsg 0) 0 ∧
    (waitForEksClusterActive status 0).checks ≤ 1 := by
  refine ⟨rfl, ?_⟩
  exact Nat.zero_le 1

/-- Witness: the polling-bound theorem applied to the concrete check that
always answers CREATING. -/
theorem pollTimeoutZero_failsImmediately_witness :
    waitForEksClusterActive (fun _ => .creating) 0 = .timedOut (eksTimeoutMsg 0) 0 ∧
    (waitForEksClusterActive (fun _ => .creating) 0).checks ≤ 1 :=
  pollTimeoutZero_failsImmediately (fun _ => .creating)
    (fun _ h => EksStatus.noConfusion h)

/-- C10: for every state with `eks_deployed = false`, `down` — with or
without `--destroy-foundation` — returns immediately after reporting that
there is nothing to tear down: exit code 0, no confirmation prompt, no
external call of any kind, and no persisted state change.  Consequently the
foundation and bootstrap layers can never be destroyed through `down` once
the ephemeral cluster record has been cleared. -/
theorem down_noop_without_cluster (env : Env) (s : LabState) (opts : DownOptions)
    (h : s.eks_deployed = false) :
    down env s opts = { exitCode := 0, state := s, events := [], persisted := [] } := by
  unfold down
  rw [h]
  rfl

/-- Witness: `down --destroy-foundation` on the freshly bootstrapped state
(no EKS cluster recorded) does nothing. -/
theorem down_noop_without_cluster_witness :
    down envAllOk freshState { force := false, destroyFoundation := true } =
      { exitCode := 0, state := freshState, events := [], persisted := [] } :=
  down_noop_without_cluster envAllOk freshState
    { force := false, destroyFoundation := true } rfl

/-- C4 counterexample: `saveState` writes the record with a single direct
write to the state file (no temp file, no rename).  That op sequence is not
an atomic replace, and an abort mid-write can leave a strict prefix of the
new record on disk — a truncated file that is neither the old nor the new
content. -/
theorem saveState_atomicity_counterexample :
    isAtomicReplace (saveStateFsOps "state.json" "ABCD") "state.json" = false ∧
    "AB" ∈ crashOutcomes (saveStateFsOps "state.json" "ABCD") "state.json" "OLD" ∧
    "AB" ≠ "ABCD" ∧ "AB" ≠ "OLD" := by
  refine ⟨rfl, by decide, by decide, by decide⟩

/-- C4 amended: every `saveState` call refreshes `updated_at` and rewrites
the full record in one shot, but it does so with a single direct
`writeFileSync` to the state file rather than an all-or-nothing
temp-file-then-rename replace, so an abort during the write can leave a
truncated record. -/
theorem saveState_refreshes_fullRecord_directWrite (now : String) (s : LabState)
    (f c : String) :
    (saveState now s).state = { s with updated_at := now } ∧
    (saveState now s).snaps = [(saveState now s).state] ∧
    saveStateFsOps f c = [FsOp.writeFile f c] ∧
    isAtomicReplace (saveStateFsOps f c) f = false := by
  refine ⟨rfl, rfl, rfl, ?_⟩
  simp [isAtomicReplace, saveStateFsOps]

/-- C6: with keycloak, polaris, trino and opa all deployed, the teardown
batching puts trino and opa (plus spark when deployed) in the first,
concurrent batch, then polaris alone, then keycloak alone; and the uninstall
event trace — which is the same for every choice of per-component undeploy
outcomes, so every branch of the first batch is attempted even if a sibling
fails — runs the whole first batch before polaris's uninstall, and polaris's
before keycloak's. -/
theorem undeploy_reverse_concurrent_order (env : Env) (s : LabState)
    (hk : componentDeployed s.components "keycloak" = true)
    (hp : componentDeployed s.components "polaris" = true)
    (ht : componentDeployed s.components "trino" = true)
    (ho : componentDeployed s.components "opa" = true) :
    undeployBatches s.components =
      (if componentDeployed s.components "spark" then
        [["opa", "spark", "trino"], ["polaris"], ["keycloak"]]
      else [["opa", "trino"], ["polaris"], ["keycloak"]]) ∧
    (undeployComponents env s).events =
      [Event.kubectlDeleteResource "opa-policies", Event.helmUninstall "opa"] ++
      (if componentDeployed s.components "spark" then
        [Event.kubectlDeleteResource "sparkapplications", Event.helmUninstall "spark-operator"]
      else []) ++
      [Event.helmUninstall "trino", Event.helmUninstall "polaris", Event.helmUninstall "keycloak"] := by
  constructor
  · by_cases hsp : componentDeployed s.components "spark" = true
    · simp [undeployBatches, hk, hp, ht, ho, hsp]
    · simp [undeployBatches, hk, hp, ht, ho, hsp]
  · simp only [componentDeployed, getComponent] at hk hp ht ho
    by_cases hsp : (match s.components.spark with
        | some c => c.deployed
        | none => false) = true <;>
    by_cases ho2 : env.undeployOk "opa" = true <;>
    by_cases hs2 : env.undeployOk "spark" = true <;>
    by_cases ht2 : env.undeployOk "trino" = true <;>
    by_cases hp2 : env.undeployOk "polaris" = true <;>
    by_cases hk2 : env.undeployOk "keycloak" = true <;>
    simp [undeployComponents, undeployStep, clearComponentState, saveState,
      removeComponent, componentDeployed, getComponent, hsp, ho2, hs2, ht2, hp2, hk2,
      hk, hp, ht, ho]

/-- Witness: the teardown-order theorem applied to the concrete state with
all four components deployed, in an environment where trino's undeploy
fails. -/
theorem undeploy_reverse_concurrent_order_witness :
    undeployBatches allDeployedState.components =
      (if componentDeployed allDeployedState.components "spark" then
        [["opa", "spark", "trino"], ["polaris"], ["keycloak"]]
      else [["opa", "trino"], ["polaris"], ["keycloak"]]) ∧
    (undeployComponents envTrinoUndeployFails allDeployedState).events =
      [Event.kubectlDeleteResource "opa-policies", Event.helmUninstall "opa"] ++
      (if componentDeployed allDeployedState.components "spark" then
        [Event.kubectlDeleteResource "sparkapplications", Event.helmUninstall "spark-operator"]
      else []) ++
      [Event.helmUninstall "trino", Event.helmUninstall "polaris", Event.helmUninstall "keycloak"] :=
  undeploy_reverse_concurrent_order envTrinoUndeployFails allDeployedState rfl rfl rfl rfl

/-- C5 counterexample: requesting trino alone with keycloak and polaris not
deployed does NOT abort the command — `up` on a cluster-ready state with no
components exits 0 and still persists a state snapshot, because the
per-component catch swallows the dependency error and the command runs to
completion. -/
theorem up_trino_unmet_dependency_counterexample :
    (up envAllOk "demo" clusterReadyState ["trino"] {}).exitCode = 0 ∧
    (up envAllOk "demo" clusterReadyState ["trino"] {}).persisted ≠ [] := by
  constructor
  · rfl
  · decide

/-- C5 amended: requesting only trino while polaris is not deployed makes
`deployTrino` throw a plain "Polaris must be deployed before Trino" error
before any external call for trino is made (fail fast, no side effects for
trino), but the orchestrator catches that error, logs it, and the command
continues to completion: exit code 0, no mutating call, component records
unchanged, and the final state saved.  No typed `UnmetHardDependency` error
exists in the code. -/
theorem up_trino_unmet_dependency_soft_skip (env : Env) (lab : String) (s : LabState)
    (hf : s.foundation_deployed = true) (hb : s.bootstrap_outputs.isNone = false)
    (hk : env.kubectlInstalled = true) (ha : env.awsCliInstalled = true)
    (hh : env.helmInstalled = true)
    (he : s.eks_deployed = true) (hcr : truthy s.cluster_ready = true)
    (hes : truthy s.essentials_deployed = true)
    (hpol : componentDeployed s.components "polaris" = false) :
    deployTrino env s false =
      { result := .error "Polaris must be deployed before Trino", events := [] } ∧
    (up env lab s ["trino"] {}).exitCode = 0 ∧
    (up env lab s ["trino"] {}).events.all (fun e => !e.mutating) = true ∧
    (up env lab s ["trino"] {}).state.components = s.components ∧
    (up env lab s ["trino"] {}).persisted = [{ s with updated_at := env.now }] := by
  have htd : componentsToDeploy ["trino"] false = ["trino"] := rfl
  have hup : up env lab s ["trino"] {} =
      { exitCode := 0
        state := { s with updated_at := env.now }
        events := if s.eks_outputs.isSome then [Event.getNodeStatus] else []
        persisted := [{ s with updated_at := env.now }] } := by
    simp [up, preFlightChecks, hf, hb, hk, ha, hh, he, upStep3, hcr, upStep4, hes,
      upStep5, deployComponents, htd, deployComponentsSoft, softDeployStep,
      deployTrino, hpol, saveState]
  refine ⟨by simp [deployTrino, hpol], ?_, ?_, ?_, ?_⟩ <;> rw [hup]
  all_goals first
    | rfl
    | (split <;> rfl)

/-- Witness: the unmet-dependency theorem at the concrete cluster-ready state
with no components deployed. -/
theorem up_trino_unmet_dependency_soft_skip_witness :
    deployTrino envAllOk clusterReadyState false =
      { result := .error "Polaris must be deployed before Trino", events := [] } ∧
    (up envAllOk "demo" clusterReadyState ["trino"] {}).exitCode = 0 ∧
    (up envAllOk "demo" clusterReadyState ["trino"] {}).events.all (fun e => !e.mutating) = true ∧
    (up envAllOk "demo" clusterReadyState ["trino"] {}).state.components =
      clusterReadyState.components ∧
    (up envAllOk "demo" clusterReadyState ["trino"] {}).persisted =
      [{ clusterReadyState with updated_at := envAllOk.now }] :=
  up_trino_unmet_dependency_soft_skip envAllOk "demo" clusterReadyState
    rfl rfl rfl rfl rfl rfl rfl rfl rfl

/-- C3 counterexample: when trino's deployment fails during `up --all`, the
command exits 0 — not non-zero — and no trino record at all is written (in
particular no record with `deployed := false`): the failure is caught,
logged, and swallowed. -/
theorem up_trino_failure_counterexample :
    (up envTrinoFails "demo" clusterReadyState [] { all := true }).exitCode = 0 ∧
    (up envTrinoFails "demo" clusterReadyState [] { all := true }).state.components.trino = none := by
  constructor
  · rfl
  · rfl

/-- C3 amended: if trino's deployment fails during `up --all`, keycloak and
polaris remain recorded as deployed, trino's record is left exactly as it
was before the run (absent when it was never deployed — no `deployed=false`
record is written), opa's deployment is still attempted (its helm install
occurs), and the command completes with exit code 0 because the failure is
caught and logged rather than propagated. -/
theorem up_trino_failure_containment (env : Env) (lab : String) (s : LabState)
    (hkc : env.kubectlInstalled = true) (ha : env.awsCliInstalled = true)
    (hh : env.helmInstalled = true)
    (hre : ∀ c, env.releaseExists c = false)
    (hiK : env.installOk "keycloak" = true) (hiP : env.installOk "polaris" = true)
    (hiS : env.installOk "spark" = true) (hiO : env.installOk "opa" = true)
    (hiT : env.installOk "trino" = false)
    (hpc : env.polarisChartFound = true)
    (hf : s.foundation_deployed = true) (hb : s.bootstrap_outputs.isNone = false)
    (he : s.eks_deployed = true) (hcr : truthy s.cluster_ready = true)
    (hes : truthy s.essentials_deployed = true)
    (hfo : s.foundation_outputs.isNone = false) (heo : s.eks_outputs.isNone = false) :
    (up env lab s [] { all := true }).exitCode = 0 ∧
    componentDeployed (up env lab s [] { all := true }).state.components "keycloak" = true ∧
    componentDeployed (up env lab s [] { all := true }).state.components "polaris" = true ∧
    (up env lab s [] { all := true }).state.components.trino = s.components.trino ∧
    Event.helmInstall "opa" ∈ (up env lab s [] { all := true }).events := by
  refine ⟨?_, ?_, ?_, ?_, ?_⟩ <;>
    simp [up, preFlightChecks, hf, hb, hkc, ha, hh, he, upStep3, hcr, upStep4, hes,
      upStep5, deployComponents, componentsToDeploy, deployComponentsSoft, softDeployStep,
      deployKeycloak, deployPolaris, deployTrino, deploySpark, deployOpa,
      updateComponentState, setComponent, saveState, componentDeployed, getComponent,
      hre, hiK, hiP, hiS, hiO, hiT, hpc, hfo, heo]

/-- Witness: the trino-failure-containment theorem at the concrete
cluster-ready state and the environment in which only trino's install
fails. -/
theorem up_trino_failure_containment_witness :
    (up envTrinoFails "demo" clusterReadyState [] { all := true }).exitCode = 0 ∧
    componentDeployed (up envTrinoFails "demo" clusterReadyState [] { all := true }).state.components "keycloak" = true ∧
    componentDeployed (up envTrinoFails "demo" clusterReadyState [] { all := true }).state.components "polaris" = true ∧
    (up envTrinoFails "demo" clusterReadyState [] { all := true }).state.components.trino =
      clusterReadyState.components.trino ∧
    Event.helmInstall "opa" ∈ (up envTrinoFails "demo" clusterReadyState [] { all := true }).events :=
  up_trino_failure_containment envTrinoFails "demo" clusterReadyState
    rfl rfl rfl (fun _ => rfl) rfl rfl rfl rfl (by decide) rfl
    rfl rfl rfl rfl rfl rfl rfl

/-- C8 counterexample: `up --dry-run` on a state whose cluster is already
deployed does NOT return before mutating calls — it runs the essentials step
(namespace and secret creation) and saves the persisted LabState, because the
dry-run early return sits inside the provisioning branch only. -/
theorem dry_run_mutation_counterexample :
    (up envAllOk "demo" noEssentialsState [] { dryRun := true }).events.filter
      Event.mutating ≠ [] ∧
    (up envAllOk "demo" noEssentialsState [] { dryRun := true }).persisted ≠ [] := by
  constructor
  · decide
  · decide

/-- C8 amended: in dry-run mode `bootstrap` always executes only plan steps —
no mutating call, no persisted-state change, for every starting state — and
`up` does so exactly when it reaches the cluster-provisioning step (cluster
not yet deployed, or forced): it then plans, performs no mutating call,
persists nothing and returns.  When the cluster is already deployed and not
forced, `up` ignores the dry-run flag for the readiness/essentials steps and
saves state (see the counterexample). -/
theorem dry_run_plan_only (env : Env) (lab : String) (s : LabState) (comps : List String)
    (bopts : BootstrapOptions) (uopts : UpOptions)
    (hb : bopts.dryRun = true) (hu : uopts.dryRun = true)
    (hprov : s.eks_deployed = false ∨ uopts.force = true) :
    ((bootstrap env s bopts).persisted = [] ∧
     (bootstrap env s bopts).events.all (fun e => !e.mutating) = true) ∧
    ((up env lab s comps uopts).persisted = [] ∧
     (up env lab s comps uopts).events.all (fun e => !e.mutating) = true) := by
  constructor
  · by_cases h1 : s.bootstrapped = true <;> by_cases h2 : bopts.force = true <;>
      by_cases h3 : bopts.skipFoundation = true <;>
      by_cases h4 : s.foundation_deployed = true <;>
      by_cases h5 : s.bootstrap_outputs.isNone = true <;>
      simp [bootstrap, bootstrapStateBackend, bootstrapRest, deployFoundation, hb,
        h1, h2, h3, h4, h5, Event.mutating]
  · cases hpc : preFlightChecks env s uopts.skipComponents with
    | error e => simp [up, hpc]
    | ok u =>
      rcases hprov with h | h <;>
        simp [up, hpc, hu, h, deployEks, Event.mutating]

/-- Witness: dry-run on the freshly bootstrapped state (no cluster yet)
plans only, for both `bootstrap` and `up`. -/
theorem dry_run_plan_only_witness :
    ((bootstrap envAllOk freshState { dryRun := true }).persisted = [] ∧
     (bootstrap envAllOk freshState { dryRun := true }).events.all
       (fun e => !e.mutating) = true) ∧
    ((up envAllOk "demo" freshState [] { dryRun := true }).persisted = [] ∧
     (up envAllOk "demo" freshState [] { dryRun := true }).events.all
       (fun e => !e.mutating) = true) :=
  dry_run_plan_only envAllOk "demo" freshState [] { dryRun := true } { dryRun := true }
    rfl rfl (Or.inl rfl)

/-- C7 counterexample: a normal forced `down` from a state with
`eks_deployed = true` but `cluster_ready = false` completes with exit 0 yet
leaves the keycloak component record in the persisted state — the component
records are NOT cleared for every starting state with a deployed cluster,
because `undeployComponents` only runs when kubectl is available and the
cluster is marked ready. -/
theorem down_frame_counterexample :
    (down envAllOk unreadyClusterState { force := true }).exitCode = 0 ∧
    (down envAllOk unreadyClusterState { force := true }).state.components.keycloak ≠ none := by
  constructor
  · rfl
  · decide

/-- Transitivity of field agreement. -/
theorem sameNonComponentFields_trans {a b c : LabState}
    (h1 : sameNonComponentFields a b) (h2 : sameNonComponentFields b c) :
    sameNonComponentFields a c := by
  unfold sameNonComponentFields at *
  obtain ⟨x1, x2, x3, x4, x5, x6, x7, x8, x9, x10, x11, x12⟩ := h1
  obtain ⟨y1, y2, y3, y4, y5, y6, y7, y8, y9, y10, y11, y12⟩ := h2
  exact ⟨x1.trans y1, x2.trans y2, x3.trans y3, x4.trans y4, x5.trans y5, x6.trans y6,
    x7.trans y7, x8.trans y8, x9.trans y9, x10.trans y10, x11.trans y11, x12.trans y12⟩

/-- One component undeploy branch touches only `components` and
`updated_at`. -/
theorem undeployStep_frame (env : Env) (s : LabState) (n r : String)
    (ex : List Event) (run : Bool) :
    sameNonComponentFields (undeployStep env s n r ex run).state s := by
  unfold undeployStep clearComponentState saveState sameNonComponentFields
  split
  · split <;> simp
  · simp

/-- `undeployComponents` touches only `components` and `updated_at`. -/
theorem undeployComponents_frame (env : Env) (s : LabState) :
    sameNonComponentFields (undeployComponents env s).state s := by
  unfold undeployComponents
  exact sameNonComponentFields_trans (undeployStep_frame _ _ _ _ _ _)
    (sameNonComponentFields_trans (undeployStep_frame _ _ _ _ _ _)
      (sameNonComponentFields_trans (undeployStep_frame _ _ _ _ _ _)
        (sameNonComponentFields_trans (undeployStep_frame _ _ _ _ _ _)
          (undeployStep_frame _ _ _ _ _ _))))

/-- When every undeploy attempt succeeds, `undeployComponents` removes the
records of exactly the components marked deployed. -/
theorem undeployComponents_allOk (env : Env) (s : LabState)
    (hok : ∀ c, env.undeployOk c = true) :
    (undeployComponents env s).state.components = componentsAfterUndeploy s.components := by
  by_cases h1 : (match s.components.opa with | some c => c.deployed | none => false) = true <;>
  by_cases h2 : (match s.components.spark with | some c => c.deployed | none => false) = true <;>
  by_cases h3 : (match s.components.trino with | some c => c.deployed | none => false) = true <;>
  by_cases h4 : (match s.components.polaris with | some c => c.deployed | none => false) = true <;>
  by_cases h5 : (match s.components.keycloak with | some c => c.deployed | none => false) = true <;>
  simp [undeployComponents, undeployStep, clearComponentState, saveState, removeComponent,
    componentDeployed, getComponent, componentsAfterUndeploy, hok, h1, h2, h3, h4, h5]

/-- C7 amended: a completed normal `down` (no `--destroy-foundation`,
confirmed or forced, cluster destroy succeeding) always clears the five
ephemeral-phase fields and leaves `bootstrapped`, `bootstrap_outputs`,
`foundation_deployed`, `foundation_outputs`, `lab_name` and `created_at`
unchanged in the persisted state; the component records, however, are
cleared only for components whose undeploy actually ran and succeeded —
when kubectl is unavailable or the cluster was never marked ready, the
records survive the teardown unchanged (see the counterexample). -/
theorem down_clears_ephemeral_frame (env : Env) (s : LabState) (opts : DownOptions)
    (he : s.eks_deployed = true) (hdf : opts.destroyFoundation = false)
    (hok : env.destroyEksOk = true)
    (hconf : opts.force = true ∨ env.confirmAnswer = true) :
    (down env s opts).exitCode = 0 ∧
    (down env s opts).persisted.getLast? = some (down env s opts).state ∧
    (down env s opts).state.eks_deployed = false ∧
    (down env s opts).state.eks_outputs = none ∧
    (down env s opts).state.cluster_ready = some false ∧
    (down env s opts).state.cluster_context = none ∧
    (down env s opts).state.essentials_deployed = some false ∧
    (down env s opts).state.bootstrapped = s.bootstrapped ∧
    (down env s opts).state.bootstrap_outputs = s.bootstrap_outputs ∧
    (down env s opts).state.foundation_deployed = s.foundation_deployed ∧
    (down env s opts).state.foundation_outputs = s.foundation_outputs ∧
    (down env s opts).state.lab_name = s.lab_name ∧
    (down env s opts).state.created_at = s.created_at ∧
    ((env.kubectlInstalled && truthy s.cluster_ready) = false →
      (down env s opts).state.components = s.components) ∧
    (env.kubectlInstalled = true → truthy s.cluster_ready = true →
      (∀ c, env.undeployOk c = true) →
      (down env s opts).state.components = componentsAfterUndeploy s.components) := by
  have hnc : (!opts.force && !env.confirmAnswer) = false := by
    rcases hconf with h | h <;> simp [h]
  by_cases hsd : (env.kubectlInstalled && truthy s.cluster_ready) = true
  · obtain ⟨f1, f2, f3, f4, f5, f6, f7, f8, f9, f10, f11, f12⟩ :=
      undeployComponents_frame env s
    have hdown : down env s opts =
        { exitCode := 0
          state := { (undeployComponents env s).state with
            eks_deployed := false, eks_outputs := none, cluster_ready := some false,
            cluster_context := none, essentials_deployed := some false,
            updated_at := env.now }
          events := (if opts.force then [] else [Event.promptConfirm]) ++
            ((undeployComponents env s).events ++ gracefulShutdownEvents) ++
            ((if (undeployComponents env s).state.bootstrap_outputs.isSome then
                [Event.writeBackendConfig "ephemeral"] else []) ++
             [Event.terraformInit "ephemeral", Event.terraformDestroy "ephemeral"]) ++
            verifyFoundationEvents (undeployComponents env s).state
          persisted := (undeployComponents env s).snaps ++
            [{ (undeployComponents env s).state with
              eks_deployed := false, eks_outputs := none, cluster_ready := some false,
              cluster_context := none, essentials_deployed := some false,
              updated_at := env.now }] ++
            [{ (undeployComponents env s).state with
              eks_deployed := false, eks_outputs := none, cluster_ready := some false,
              cluster_context := none, essentials_deployed := some false,
              updated_at := env.now }] } := by
      simp [down, he, hdf, hnc, hsd, destroyEksStep, hok, clearEphemeralState, saveState]
    rw [hdown]
    refine ⟨rfl, ?_, rfl, rfl, rfl, rfl, rfl, f4, f5, f6, f7, f2, f3, ?_, ?_⟩
    · simp [List.getLast?_concat]
    · intro hc
      rw [hc] at hsd
      exact absurd hsd (by simp)
    · intro _ _ hbreak
      exact undeployComponents_allOk env s hbreak
  · have hdown : down env s opts =
        { exitCode := 0
          state := { s with
            eks_deployed := false, eks_outputs := none, cluster_ready := some false,
            cluster_context := none, essentials_deployed := some false,
            updated_at := env.now }
          events := (if opts.force then [] else [Event.promptConfirm]) ++
            ((if s.bootstrap_outputs.isSome then
                [Event.writeBackendConfig "ephemeral"] else []) ++
             [Event.terraformInit "ephemeral", Event.terraformDestroy "ephemeral"]) ++
            verifyFoundationEvents s
          persisted :=
            [{ s with
              eks_deployed := false, eks_outputs := none, cluster_ready := some false,
              cluster_context := none, essentials_deployed := some false,
              updated_at := env.now }] ++
            [{ s with
              eks_deployed := false, eks_outputs := none, cluster_ready := some false,
              cluster_context := none, essentials_deployed := some false,
              updated_at := env.now }] } := by
      simp [down, he, hdf, hnc, hsd, destroyEksStep, hok, clearEphemeralState, saveState]
    rw [hdown]
    refine ⟨rfl, ?_, rfl, rfl, rfl, rfl, rfl, rfl, rfl, rfl, rfl, rfl, rfl, ?_, ?_⟩
    · simp [List.getLast?_concat]
    · intro _
      rfl
    · intro hk hr _
      rw [hk, hr] at hsd
      exact absurd rfl hsd

/-- Witness: the frame theorem at the concrete all-components-deployed state
with a forced, successful teardown. -/
theorem down_clears_ephemeral_frame_witness :
    (down envAllOk allDeployedState { force := true }).exitCode = 0 ∧
    (down envAllOk allDeployedState { force := true }).persisted.getLast? =
      some (down envAllOk allDeployedState { force := true }).state ∧
    (down envAllOk allDeployedState { force := true }).state.eks_deployed = false ∧
    (down envAllOk allDeployedState { force := true }).state.eks_outputs = none ∧
    (down envAllOk allDeployedState { force := true }).state.cluster_ready = some false ∧
    (down envAllOk allDeployedState { force := true }).state.cluster_context = none ∧
    (down envAllOk allDeployedState { force := true }).state.essentials_deployed = some false ∧
    (down envAllOk allDeployedState { force := true }).state.bootstrapped =
      allDeployedState.bootstrapped ∧
    (down envAllOk allDeployedState { force := true }).state.bootstrap_outputs =
      allDeployedState.bootstrap_outputs ∧
    (down envAllOk allDeployedState { force := true }).state.foundation_deployed =
      allDeployedState.foundation_deployed ∧
    (down envAllOk allDeployedState { force := true }).state.foundation_outputs =
      allDeployedState.foundation_outputs ∧
    (down envAllOk allDeployedState { force := true }).state.lab_name =
      allDeployedState.lab_name ∧
    (down envAllOk allDeployedState { force := true }).state.created_at =
      allDeployedState.created_at ∧
    ((envAllOk.kubectlInstalled && truthy allDeployedState.cluster_ready) = false →
      (down envAllOk allDeployedState { force := true }).state.components =
        allDeployedState.components) ∧
    (envAllOk.kubectlInstalled = true → truthy allDeployedState.cluster_ready = true →
      (∀ c, envAllOk.undeployOk c = true) →
      (down envAllOk allDeployedState { force := true }).state.components =
        componentsAfterUndeploy allDeployedState.components) :=
  down_clears_ephemeral_frame envAllOk allDeployedState { force := true }
    rfl rfl rfl (Or.inl rfl)

/-- C1 counterexample: re-running `up` with identical arguments after a fully
successful first run performs zero mutating calls, but the persisted state is
NOT identical-except-`updated_at` to the first run's state: each skipped
component's record is overwritten by the skip-path record, which drops
`deployed_at` (shown here for keycloak). -/
theorem up_idempotency_counterexample :
    (up envSecondRun "demo" afterFirstUp [] {}).events.filter Event.mutating = [] ∧
    (up envSecondRun "demo" afterFirstUp [] {}).persisted.getLast? ≠
      some { afterFirstUp with updated_at := envSecondRun.now } ∧
    (up envSecondRun "demo" afterFirstUp [] {}).state.components.keycloak ≠
      afterFirstUp.components.keycloak := by
  refine ⟨by decide, by decide, by decide⟩

/-- C1 amended: invoking `up` again without `--force` when the cluster,
readiness and essentials flags are already set and every requested
component's helm release already exists performs zero mutating
provisioner/deployment calls and exits 0, and the final persisted LabState
equals the previous state except for `updated_at` AND the requested
components' records, which are replaced by the skip-path records (same
`deployed`, `namespace`, `release_name`, but `deployed_at` dropped). -/
theorem up_second_run_no_mutation (env : Env) (lab : String) (s : LabState)
    (comps : List String) (all : Bool)
    (hk : env.kubectlInstalled = true) (ha : env.awsCliInstalled = true)
    (hh : env.helmInstalled = true)
    (hre : ∀ r, env.releaseExists r = true)
    (hf : s.foundation_deployed = true) (hb : s.bootstrap_outputs.isNone = false)
    (he : s.eks_deployed = true) (hcr : truthy s.cluster_ready = true)
    (hes : truthy s.essentials_deployed = true)
    (hck : componentDeployed s.components "keycloak" = true)
    (hcp : componentDeployed s.components "polaris" = true) :
    (up env lab s comps { all := all }).exitCode = 0 ∧
    (up env lab s comps { all := all }).events.all (fun e => !e.mutating) = true ∧
    (up env lab s comps { all := all }).persisted.getLast? =
      some { s with
        updated_at := env.now
        components := applySkips s.components (componentsToDeploy comps all) } ∧
    (up env lab s comps { all := all }).state =
      { s with
        updated_at := env.now
        components := applySkips s.components (componentsToDeploy comps all) } := by
  have haux : (if s.eks_outputs.isSome = true then [Event.getNodeStatus] else []).all
      (fun e => !e.mutating) = true := by
    split <;> rfl
  simp only [componentDeployed, getComponent] at hck hcp
  by_cases h0 : componentsToDeploy comps all = []
  · simp [up, preFlightChecks, hf, hb, hk, ha, hh, he, upStep3, hcr, upStep4, hes,
      upStep5, deployComponents, deployComponentsSoft, softDeployStep,
      saveState, applySkips, haux, h0, List.getLast?_concat]
  · by_cases c1 : "keycloak" ∈ componentsToDeploy comps all <;>
    by_cases c2 : "polaris" ∈ componentsToDeploy comps all <;>
    by_cases c3 : "trino" ∈ componentsToDeploy comps all <;>
    by_cases c4 : "spark" ∈ componentsToDeploy comps all <;>
    by_cases c5 : "opa" ∈ componentsToDeploy comps all <;>
    simp [up, preFlightChecks, hf, hb, hk, ha, hh, he, upStep3, hcr, upStep4, hes,
      upStep5, deployComponents, deployComponentsSoft, softDeployStep,
      deployKeycloak, deployPolaris, deployTrino, deploySpark, deployOpa,
      updateComponentState, setComponent, saveState, applySkips, skipRecord,
      componentDeployed, getComponent, hre, hck, hcp, h0, c1, c2, c3, c4, c5,
      haux, Event.mutating, List.getLast?_concat, List.isEmpty_iff]

/-- Witness: the second-run theorem at the concrete state left by a fully
successful default first run. -/
theorem up_second_run_no_mutation_witness :
    (up envSecondRun "demo" afterFirstUp [] { all := false }).exitCode = 0 ∧
    (up envSecondRun "demo" afterFirstUp [] { all := false }).events.all
      (fun e => !e.mutating) = true ∧
    (up envSecondRun "demo" afterFirstUp [] { all := false }).persisted.getLast? =
      some { afterFirstUp with
        updated_at := envSecondRun.now
        components := applySkips afterFirstUp.components (componentsToDeploy [] false) } ∧
    (up envSecondRun "demo" afterFirstUp [] { all := false }).state =
      { afterFirstUp with
        updated_at := envSecondRun.now
        components := applySkips afterFirstUp.components (componentsToDeploy [] false) } :=
  up_second_run_no_mutation envSecondRun "demo" afterFirstUp [] false
    rfl rfl rfl (fun _ => rfl) (by decide) (by decide) (by decide) (by decide)
    (by decide) (by decide) (by decide)



/-- `saveState` does not change the phase flags. -/
theorem chainInv_saveState (now : String) (s : LabState) :
    chainInv (saveState now s).state = chainInv s := rfl

/-- A catch-and-continue component deploy step preserves the phase-flag
chain in its resulting state and in every snapshot it persists. -/
theorem chain_softDeployStep (env : Env) (s : LabState) (name : String) (run : Bool)
    (d : LabState → DeployOut) (h : chainInv s = true) :
    chainInv (softDeployStep env s name run d).state = true ∧
    ∀ p ∈ (softDeployStep env s name run d).snaps, chainInv p = true := by
  unfold softDeployStep
  split
  · cases hd : (d s).result <;>
      simp_all [updateComponentState, saveState, chainInv, truthy]
  · simp_all

/-- The polaris/trino/spark/opa sequence preserves the chain. -/
theorem chain_deployComponentsSoft (env : Env) (s : LabState) (toDeploy : List String)
    (force : Bool) (h : chainInv s = true) :
    chainInv (deployComponentsSoft env s toDeploy force).state = true ∧
    ∀ p ∈ (deployComponentsSoft env s toDeploy force).snaps, chainInv p = true := by
  unfold deployComponentsSoft
  obtain ⟨h1, h1s⟩ := chain_softDeployStep env s "polaris" (toDeploy.contains "polaris")
    (fun s => deployPolaris env s force) h
  obtain ⟨h2, h2s⟩ := chain_softDeployStep env _ "trino" (toDeploy.contains "trino")
    (fun s => deployTrino env s force) h1
  obtain ⟨h3, h3s⟩ := chain_softDeployStep env _ "spark" (toDeploy.contains "spark")
    (fun _ => deploySpark env force) h2
  obtain ⟨h4, h4s⟩ := chain_softDeployStep env _ "opa" (toDeploy.contains "opa")
    (fun _ => deployOpa env force) h3
  refine ⟨h4, ?_⟩
  intro p hp
  simp only [List.mem_append] at hp
  rcases hp with ((hp | hp) | hp) | hp
  · exact h1s p hp
  · exact h2s p hp
  · exact h3s p hp
  · exact h4s p hp

/-- `deployComponents` preserves the chain in every persisted snapshot and
in its successful result state. -/
theorem chain_deployComponents (env : Env) (s : LabState) (args : List String)
    (all force : Bool) (h : chainInv s = true) :
    (∀ p ∈ (deployComponents env s args all force).snaps, chainInv p = true) ∧
    (∀ s4, (deployComponents env s args all force).result = .ok s4 → chainInv s4 = true) := by
  by_cases h0 : (componentsToDeploy args all).isEmpty = true
  · refine ⟨?_, ?_⟩
    · intro p hp
      simp [deployComponents, h0] at hp
    · intro s4 h4
      simp [deployComponents, h0] at h4
      exact h4 ▸ h
  · by_cases h1 : "keycloak" ∈ componentsToDeploy args all
    · cases hd : (deployKeycloak env force).result with
      | error e =>
        refine ⟨?_, ?_⟩
        · intro p hp
          simp [deployComponents, h0, h1, hd] at hp
        · intro s4 h4
          simp [deployComponents, h0, h1, hd] at h4
      | ok cs =>
        have hstate : chainInv (updateComponentState env.now s "keycloak" cs).state = true := by
          simp_all [updateComponentState, saveState, chainInv, truthy]
        obtain ⟨hc, hcs⟩ := chain_deployComponentsSoft env
          (updateComponentState env.now s "keycloak" cs).state
          (componentsToDeploy args all) force hstate
        refine ⟨?_, ?_⟩
        · intro p hp
          simp [deployComponents, h0, h1, hd, updateComponentState, saveState] at hp
          rcases hp with hp | hp
          · subst hp
            exact hstate
          · exact hcs p hp
        · intro s4 h4
          simp [deployComponents, h0, h1, hd] at h4
          exact h4 ▸ hc
    · obtain ⟨hc, hcs⟩ := chain_deployComponentsSoft env s
        (componentsToDeploy args all) force h
      refine ⟨?_, ?_⟩
      · intro p hp
        simp [deployComponents, h0, h1] at hp
        exact hcs p hp
      · intro s4 h4
        simp [deployComponents, h0, h1] at h4
        exact h4 ▸ hc



/-- Chain elimination: a ready cluster implies a deployed cluster. -/
theorem chainInv_cluster_ready (s : LabState) (h : chainInv s = true)
    (hcr : truthy s.cluster_ready = true) : s.eks_deployed = true := by
  simp only [chainInv, Bool.and_eq_true, Bool.or_eq_true, Bool.not_eq_true'] at h
  rcases h with ⟨⟨h1, _⟩, _⟩
  rcases h1 with h1 | h1
  · rw [hcr] at h1
    cases h1
  · exact h1

/-- Chain elimination: a deployed cluster implies a deployed foundation. -/
theorem chainInv_eks (s : LabState) (h : chainInv s = true)
    (he : s.eks_deployed = true) : s.foundation_deployed = true := by
  simp only [chainInv, Bool.and_eq_true, Bool.or_eq_true, Bool.not_eq_true'] at h
  rcases h with ⟨⟨_, h2⟩, _⟩
  rcases h2 with h2 | h2
  · rw [he] at h2
    cases h2
  · exact h2

/-- Chain elimination: a deployed foundation implies a bootstrapped lab. -/
theorem chainInv_foundation (s : LabState) (h : chainInv s = true)
    (hf : s.foundation_deployed = true) : s.bootstrapped = true := by
  simp only [chainInv, Bool.and_eq_true, Bool.or_eq_true, Bool.not_eq_true'] at h
  rcases h with ⟨_, h3⟩
  rcases h3 with h3 | h3
  · rw [hf] at h3
    cases h3
  · exact h3

/-- Passing pre-flight checks requires a deployed foundation. -/
theorem preFlightChecks_ok (env : Env) (s : LabState) (skipC : Bool) (u : Unit)
    (h : preFlightChecks env s skipC = .ok u) : s.foundation_deployed = true := by
  unfold preFlightChecks at h
  by_cases hc : (!s.foundation_deployed || s.bootstrap_outputs.isNone) = true
  · rw [if_pos hc] at h
    cases h
  · simp only [Bool.or_eq_true, Bool.not_eq_true', not_or] at hc
    obtain ⟨hc1, _⟩ := hc
    simpa using hc1

/-- Step 5 of `up` persists only chain-respecting snapshots. -/
theorem chain_upStep5 (env : Env) (s3 : LabState) (comps : List String) (opts : UpOptions)
    (ev : List Event) (sn : List LabState)
    (h3 : chainInv s3 = true) (hsn : ∀ p ∈ sn, chainInv p = true) :
    ∀ p ∈ (upStep5 env s3 comps opts ev sn).persisted, chainInv p = true := by
  obtain ⟨hcs, hok⟩ := chain_deployComponents env s3 comps opts.all opts.force h3
  by_cases hq : (!opts.skipComponents && !opts.dryRun) = true
  · cases hd : (deployComponents env s3 comps opts.all opts.force).result with
    | error e =>
      have hpe : (upStep5 env s3 comps opts ev sn).persisted =
          sn ++ (deployComponents env s3 comps opts.all opts.force).snaps := by
        simp [upStep5, hq, hd]
      intro p hp
      rw [hpe] at hp
      rcases List.mem_append.mp hp with hp | hp
      · exact hsn p hp
      · exact hcs p hp
    | ok s4 =>
      have hpe : (upStep5 env s3 comps opts ev sn).persisted =
          sn ++ (deployComponents env s3 comps opts.all opts.force).snaps ++
            [(saveState env.now s4).state] := by
        simp [upStep5, hq, hd, saveState]
      intro p hp
      rw [hpe] at hp
      rcases List.mem_append.mp hp with hp | hp
      · rcases List.mem_append.mp hp with hp | hp
        · exact hsn p hp
        · exact hcs p hp
      · rw [List.mem_singleton] at hp
        subst hp
        exact hok s4 hd
  · have hpe : (upStep5 env s3 comps opts ev sn).persisted =
        sn ++ [(saveState env.now s3).state] := by
      simp [upStep5, hq, saveState]
    intro p hp
    rw [hpe] at hp
    rcases List.mem_append.mp hp with hp | hp
    · exact hsn p hp
    · rw [List.mem_singleton] at hp
      subst hp
      exact h3



/-- Step 4 of `up` persists only chain-respecting snapshots, given a ready
cluster. -/
theorem chain_upStep4 (env : Env) (s2 : LabState) (comps : List String) (opts : UpOptions)
    (ev : List Event) (sn : List LabState)
    (h2 : chainInv s2 = true) (hcr2 : truthy s2.cluster_ready = true)
    (hsn : ∀ p ∈ sn, chainInv p = true) :
    ∀ p ∈ (upStep4 env s2 comps opts ev sn).persisted, chainInv p = true := by
  have heks : s2.eks_deployed = true := chainInv_cluster_ready s2 h2 hcr2
  have hfound : s2.foundation_deployed = true := chainInv_eks s2 h2 heks
  have hboot : s2.bootstrapped = true := chainInv_foundation s2 h2 hfound
  by_cases hq : (!opts.skipEssentials && (!truthy s2.essentials_deployed || opts.force)) = true
  · cases hde : deployEssentials env s2 with
    | mk r e2 =>
      cases r with
      | error err =>
        have hpe : (upStep4 env s2 comps opts ev sn).persisted = sn := by
          simp [upStep4, hq, hde]
        intro p hp
        rw [hpe] at hp
        exact hsn p hp
      | ok u =>
        have hnew : chainInv (updateClusterReadyState env.now s2
            (s2.cluster_context.getD "") true).state = true := by
          simp [updateClusterReadyState, saveState, chainInv, truthy, heks, hfound, hboot]
        have heq : upStep4 env s2 comps opts ev sn =
            upStep5 env (updateClusterReadyState env.now s2
              (s2.cluster_context.getD "") true).state comps opts (ev ++ e2)
              (sn ++ (updateClusterReadyState env.now s2
                (s2.cluster_context.getD "") true).snaps) := by
          simp [upStep4, hq, hde]
        rw [heq]
        apply chain_upStep5 env _ comps opts _ _ hnew
        intro p hp
        rcases List.mem_append.mp hp with hp | hp
        · exact hsn p hp
        · rw [show (updateClusterReadyState env.now s2 (s2.cluster_context.getD "") true).snaps =
              [(updateClusterReadyState env.now s2 (s2.cluster_context.getD "") true).state] from rfl,
            List.mem_singleton] at hp
          subst hp
          exact hnew
  · have heq : upStep4 env s2 comps opts ev sn = upStep5 env s2 comps opts ev sn := by
      simp [upStep4, hq]
    rw [heq]
    exact chain_upStep5 env s2 comps opts ev sn h2 hsn

/-- Step 3 of `up` persists only chain-respecting snapshots, given a
deployed cluster. -/
theorem chain_upStep3 (env : Env) (lab : String) (np : Bool) (s1 : LabState)
    (comps : List String) (opts : UpOptions) (ev : List Event) (sn : List LabState)
    (h1 : chainInv s1 = true) (heks : s1.eks_deployed = true)
    (hsn : ∀ p ∈ sn, chainInv p = true) :
    ∀ p ∈ (upStep3 env lab np s1 comps opts ev sn).persisted, chainInv p = true := by
  have hfound : s1.foundation_deployed = true := chainInv_eks s1 h1 heks
  have hboot : s1.bootstrapped = true := chainInv_foundation s1 h1 hfound
  by_cases hq : (np || !truthy s1.cluster_ready) = true
  · cases hw : waitForClusterReadyStep env lab s1 with
    | mk r e1 =>
      cases r with
      | error err =>
        have hpe : (upStep3 env lab np s1 comps opts ev sn).persisted = sn := by
          simp [upStep3, hq, hw]
        intro p hp
        rw [hpe] at hp
        exact hsn p hp
      | ok u =>
        have hnew : chainInv (updateClusterReadyState env.now s1
            (lab ++ "-context") false).state = true := by
          simp [updateClusterReadyState, saveState, chainInv, truthy, heks, hfound, hboot]
        have heq : upStep3 env lab np s1 comps opts ev sn =
            upStep4 env (updateClusterReadyState env.now s1
              (lab ++ "-context") false).state comps opts (ev ++ e1)
              (sn ++ (updateClusterReadyState env.now s1 (lab ++ "-context") false).snaps) := by
          simp [upStep3, hq, hw]
        rw [heq]
        apply chain_upStep4 env _ comps opts _ _ hnew rfl
        intro p hp
        rcases List.mem_append.mp hp with hp | hp
        · exact hsn p hp
        · rw [show (updateClusterReadyState env.now s1 (lab ++ "-context") false).snaps =
              [(updateClusterReadyState env.now s1 (lab ++ "-context") false).state] from rfl,
            List.mem_singleton] at hp
          subst hp
          exact hnew
  · have hcr : truthy s1.cluster_ready = true := by
      simp only [Bool.or_eq_true, Bool.not_eq_true', not_or] at hq
      cases hb : truthy s1.cluster_ready with
      | false => exact absurd hb hq.2
      | true => rfl
    have heq : upStep3 env lab np s1 comps opts ev sn = upStep4 env s1 comps opts ev sn := by
      simp [upStep3, hq]
    rw [heq]
    exact chain_upStep4 env s1 comps opts ev sn h1 hcr hsn

/-- `up` persists only chain-respecting snapshots when started from a
chain-respecting state. -/
theorem chain_up (env : Env) (lab : String) (s : LabState) (comps : List String)
    (opts : UpOptions) (h : chainInv s = true) :
    ∀ p ∈ (up env lab s comps opts).persisted, chainInv p = true := by
  cases hpf : preFlightChecks env s opts.skipComponents with
  | error e =>
    intro p hp
    simp [up, hpf] at hp
  | ok u =>
    have hfound : s.foundation_deployed = true := preFlightChecks_ok env s _ u hpf
    have hboot : s.bootstrapped = true := chainInv_foundation s h hfound
    by_cases hnp : (!s.eks_deployed || opts.force) = true
    · by_cases hdry : opts.dryRun = true
      · intro p hp
        simp [up, hpf, hnp, hdry, deployEks] at hp
      · by_cases happly : env.eksApplyOk = true
        · have hs1 : chainInv (updateEksState env.now s env.eksOutputs).state = true := by
            simp [updateEksState, saveState, chainInv, truthy, hfound, hboot]
          have heq : up env lab s comps opts =
              upStep3 env lab true (updateEksState env.now s env.eksOutputs).state comps opts
                (deployEks env s opts.dryRun).events
                (updateEksState env.now s env.eksOutputs).snaps := by
            simp [up, hpf, hnp, hdry, deployEks, happly]
          rw [heq]
          apply chain_upStep3 env lab true _ comps opts _ _ hs1 rfl
          intro p hp
          rw [show (updateEksState env.now s env.eksOutputs).snaps =
              [(updateEksState env.now s env.eksOutputs).state] from rfl,
            List.mem_singleton] at hp
          subst hp
          exact hs1
        · intro p hp
          simp [up, hpf, hnp, hdry, deployEks, happly] at hp
    · have heks : s.eks_deployed = true := by
        simp only [Bool.or_eq_true, Bool.not_eq_true', not_or] at hnp
        cases hb : s.eks_deployed with
        | false => exact absurd hb hnp.1
        | true => rfl
      have heq : up env lab s comps opts = upStep3 env lab false s comps opts [] [] := by
        simp [up, hpf, hnp]
      rw [heq]
      apply chain_upStep3 env lab false s comps opts [] [] h heks
      intro p hp
      cases hp



/-- The foundation section of `bootstrap` persists only chain-respecting
snapshots (the foundation flag is only ever set after the bootstrapped flag,
except in dry-run mode where nothing is persisted). -/
theorem chain_bootstrapRest (env : Env) (s1 : LabState) (opts : BootstrapOptions)
    (ev : List Event) (sn : List LabState)
    (h1 : chainInv s1 = true)
    (hbd : opts.dryRun = true ∨ s1.bootstrapped = true)
    (hsn : ∀ p ∈ sn, chainInv p = true) :
    ∀ p ∈ (bootstrapRest env s1 opts ev sn).persisted, chainInv p = true := by
  have h1x := h1
  simp only [chainInv, Bool.and_eq_true] at h1x
  obtain ⟨⟨hA, hB⟩, hC⟩ := h1x
  by_cases hq : opts.skipFoundation = false ∧ (s1.foundation_deployed = false ∨ opts.force = true)
  · by_cases hbo : s1.bootstrap_outputs.isNone = true
    · have hpe : (bootstrapRest env s1 opts ev sn).persisted = sn := by
        simp [bootstrapRest, hq, deployFoundation, hbo]
      intro p hp
      rw [hpe] at hp
      exact hsn p hp
    · by_cases hdry : opts.dryRun = true
      · have hpe : (bootstrapRest env s1 opts ev sn).persisted = sn := by
          simp [bootstrapRest, hq, deployFoundation, hbo, hdry]
        intro p hp
        rw [hpe] at hp
        exact hsn p hp
      · by_cases happ : env.foundationApplyOk = true
        · have hboot : s1.bootstrapped = true := by
            rcases hbd with hb | hb
            · exact absurd hb hdry
            · exact hb
          have hs2 : chainInv (updateFoundationState env.now s1 env.foundationOutputs).state = true := by
            simp [updateFoundationState, saveState, chainInv, truthy, hboot]
            have hA2 : truthy s1.cluster_ready = false ∨ s1.eks_deployed = true := by
              simpa using hA
            rcases hA2 with hh | hh
            · left
              simpa [truthy] using hh
            · right
              exact hh
          have hpe : (bootstrapRest env s1 opts ev sn).persisted =
              sn ++ [(updateFoundationState env.now s1 env.foundationOutputs).state] ++
              [(saveState env.now (updateFoundationState env.now s1 env.foundationOutputs).state).state] := by
            simp [bootstrapRest, hq, deployFoundation, hbo, hdry, happ,
              updateFoundationState, saveState]
          intro p hp
          rw [hpe] at hp
          rcases List.mem_append.mp hp with hp | hp
          · rcases List.mem_append.mp hp with hp | hp
            · exact hsn p hp
            · rw [List.mem_singleton] at hp
              subst hp
              exact hs2
          · rw [List.mem_singleton] at hp
            subst hp
            exact hs2
        · have hpe : (bootstrapRest env s1 opts ev sn).persisted = sn := by
            simp [bootstrapRest, hq, deployFoundation, hbo, hdry, happ]
          intro p hp
          rw [hpe] at hp
          exact hsn p hp
  · by_cases hdry : opts.dryRun = true
    · have hpe : (bootstrapRest env s1 opts ev sn).persisted = sn := by
        simp [bootstrapRest, hq, hdry]
      intro p hp
      rw [hpe] at hp
      exact hsn p hp
    · have hpe : (bootstrapRest env s1 opts ev sn).persisted =
          sn ++ [(saveState env.now s1).state] := by
        simp [bootstrapRest, hq, hdry, saveState]
      intro p hp
      rw [hpe] at hp
      rcases List.mem_append.mp hp with hp | hp
      · exact hsn p hp
      · rw [List.mem_singleton] at hp
        subst hp
        exact h1

/-- `bootstrap` persists only chain-respecting snapshots when started from a
chain-respecting state. -/
theorem chain_bootstrap (env : Env) (s : LabState) (opts : BootstrapOptions)
    (h : chainInv s = true) :
    ∀ p ∈ (bootstrap env s opts).persisted, chainInv p = true := by
  have hx := h
  simp only [chainInv, Bool.and_eq_true] at hx
  obtain ⟨⟨hA, hB⟩, hC⟩ := hx
  by_cases hg : s.bootstrapped = true ∧ opts.force = false
  · by_cases hfd : s.foundation_deployed = true
    · intro p hp
      simp [bootstrap, hg, hfd] at hp
    · have hboot : s.bootstrapped = true := hg.1
      have heq : bootstrap env s opts = bootstrapRest env s opts [] [] := by
        simp [bootstrap, hg, hfd]
      rw [heq]
      apply chain_bootstrapRest env s opts [] [] h (Or.inr hboot)
      intro p hp
      cases hp
  · by_cases hdry : opts.dryRun = true
    · have heq : bootstrap env s opts =
          bootstrapRest env s opts
            [Event.terraformInit "bootstrap", Event.terraformPlan "bootstrap"] [] := by
        simp [bootstrap, hg, bootstrapStateBackend, hdry]
      rw [heq]
      apply chain_bootstrapRest env s opts _ [] h (Or.inl hdry)
      intro p hp
      cases hp
    · by_cases happ : env.bootstrapApplyOk = true
      · have hs1 : chainInv (updateBootstrapState env.now s env.bootstrapOutputs).state = true := by
          simp [updateBootstrapState, saveState, chainInv, truthy]
          constructor
          · have hA2 : truthy s.cluster_ready = false ∨ s.eks_deployed = true := by
              simpa using hA
            rcases hA2 with hh | hh
            · left
              simpa [truthy] using hh
            · right
              exact hh
          · have hB2 : s.eks_deployed = false ∨ s.foundation_deployed = true := by
              simpa using hB
            rcases hB2 with hh | hh
            · left
              exact hh
            · right
              exact hh
      
        have heq : bootstrap env s opts =
            bootstrapRest env (updateBootstrapState env.now s env.bootstrapOutputs).state opts
              [Event.terraformInit "bootstrap", Event.terraformApply "bootstrap",
                Event.terraformOutput "bootstrap"]
              (updateBootstrapState env.now s env.bootstrapOutputs).snaps := by
          simp [bootstrap, hg, bootstrapStateBackend, hdry, happ, updateBootstrapState, saveState]
        rw [heq]
        apply chain_bootstrapRest env _ opts _ _ hs1 (Or.inr rfl)
        intro p hp
        rw [show (updateBootstrapState env.now s env.bootstrapOutputs).snaps =
            [(updateBootstrapState env.now s env.bootstrapOutputs).state] from rfl,
          List.mem_singleton] at hp
        subst hp
        exact hs1
      · intro p hp
        simp [bootstrap, hg, bootstrapStateBackend, hdry, happ] at hp



/-- A component undeploy branch preserves the chain. -/
theorem chain_undeployStep (env : Env) (s : LabState) (n r : String)
    (ex : List Event) (run : Bool) (h : chainInv s = true) :
    chainInv (undeployStep env s n r ex run).state = true ∧
    ∀ p ∈ (undeployStep env s n r ex run).snaps, chainInv p = true := by
  unfold undeployStep
  split
  · split <;> simp_all [clearComponentState, saveState, chainInv, truthy]
  · simp_all

/-- `undeployComponents` preserves the chain in its state and snapshots. -/
theorem chain_undeployComponents (env : Env) (s : LabState) (h : chainInv s = true) :
    chainInv (undeployComponents env s).state = true ∧
    ∀ p ∈ (undeployComponents env s).snaps, chainInv p = true := by
  unfold undeployComponents
  obtain ⟨h1, h1s⟩ := chain_undeployStep env s "opa" "opa"
    [.kubectlDeleteResource "opa-policies"] (componentDeployed s.components "opa") h
  obtain ⟨h2, h2s⟩ := chain_undeployStep env _ "spark" "spark-operator"
    [.kubectlDeleteResource "sparkapplications"] (componentDeployed s.components "spark") h1
  obtain ⟨h3, h3s⟩ := chain_undeployStep env _ "trino" "trino" []
    (componentDeployed s.components "trino") h2
  obtain ⟨h4, h4s⟩ := chain_undeployStep env _ "polaris" "polaris" [] _ h3
  obtain ⟨h5, h5s⟩ := chain_undeployStep env _ "keycloak" "keycloak" [] _ h4
  refine ⟨h5, ?_⟩
  intro p hp
  simp only [List.mem_append] at hp
  rcases hp with (((hp | hp) | hp) | hp) | hp
  · exact h1s p hp
  · exact h2s p hp
  · exact h3s p hp
  · exact h4s p hp
  · exact h5s p hp

/-- Every snapshot `destroyAll` persists respects the chain (it only ever
persists the fully reset record). -/
theorem chain_destroyAll (env : Env) (s : LabState) :
    ∀ p ∈ (destroyAll env s).snaps, chainInv p = true := by
  by_cases h1 : (s.eks_deployed && !env.destroyEksOk) = true
  · intro p hp
    simp [destroyAll, h1] at hp
  · by_cases h2 : (s.foundation_deployed && !env.destroyFoundationOk) = true
    · intro p hp
      simp [destroyAll, h1, h2] at hp
    · by_cases h3 : (s.bootstrapped && !env.destroyBootstrapOk) = true
      · intro p hp
        simp [destroyAll, h1, h2, h3] at hp
      · intro p hp
        simp [destroyAll, h1, h2, h3, clearEphemeralState, saveState] at hp
        subst hp
        simp [chainInv, truthy]



/-- `down` persists only chain-respecting snapshots when started from a
chain-respecting state. -/
theorem chain_down (env : Env) (s : LabState) (opts : DownOptions)
    (h : chainInv s = true) :
    ∀ p ∈ (down env s opts).persisted, chainInv p = true := by
  by_cases hek : s.eks_deployed = false
  · intro p hp
    simp [down, hek] at hp
  · by_cases hdf : opts.destroyFoundation = true
    · by_cases hcf : env.confirmDestructiveAnswer = true
      · cases hda : (destroyAll env s).result with
        | error e =>
          have hpe : (down env s opts).persisted = (destroyAll env s).snaps := by
            simp [down, hek, hdf, hcf, hda]
          intro p hp
          rw [hpe] at hp
          exact chain_destroyAll env s p hp
        | ok s2 =>
          have hpe : (down env s opts).persisted = (destroyAll env s).snaps := by
            simp [down, hek, hdf, hcf, hda]
          intro p hp
          rw [hpe] at hp
          exact chain_destroyAll env s p hp
      · intro p hp
        simp [down, hek, hdf, hcf] at hp
    · by_cases hnc : (!opts.force && !env.confirmAnswer) = true
      · intro p hp
        simp [down, hek, hdf, hnc] at hp
      · obtain ⟨hu, hus⟩ := chain_undeployComponents env s h
        obtain ⟨f1, f2, f3, f4, f5, f6, f7, f8, f9, f10, f11, f12⟩ :=
          undeployComponents_frame env s
        by_cases hsd : (env.kubectlInstalled && truthy s.cluster_ready) = true
        · by_cases hok : env.destroyEksOk = true
          · have hclear : chainInv { (undeployComponents env s).state with
                eks_deployed := false, eks_outputs := none, cluster_ready := some false,
                cluster_context := none, essentials_deployed := some false,
                updated_at := env.now } = true := by
              simp [chainInv, truthy, f6, f4]
              have hC : s.foundation_deployed = false ∨ s.bootstrapped = true := by
                have hx := h
                simp only [chainInv, Bool.and_eq_true] at hx
                simpa using hx.2
              exact hC
            have hpe : (down env s opts).persisted =
                (undeployComponents env s).snaps ++
                [{ (undeployComponents env s).state with
                  eks_deployed := false, eks_outputs := none, cluster_ready := some false,
                  cluster_context := none, essentials_deployed := some false,
                  updated_at := env.now }] ++
                [{ (undeployComponents env s).state with
                  eks_deployed := false, eks_outputs := none, cluster_ready := some false,
                  cluster_context := none, essentials_deployed := some false,
                  updated_at := env.now }] := by
              simp [down, hek, hdf, hnc, hsd, destroyEksStep, hok,
                clearEphemeralState, saveState]
            intro p hp
            rw [hpe] at hp
            rcases List.mem_append.mp hp with hp | hp
            · rcases List.mem_append.mp hp with hp | hp
              · exact hus p hp
              · rw [List.mem_singleton] at hp
                subst hp
                exact hclear
            · rw [List.mem_singleton] at hp
              subst hp
              exact hclear
          · have hpe : (down env s opts).persisted = (undeployComponents env s).snaps := by
              simp [down, hek, hdf, hnc, hsd, destroyEksStep, hok]
            intro p hp
            rw [hpe] at hp
            exact hus p hp
        · by_cases hok : env.destroyEksOk = true
          · have hclear : chainInv { s with
                eks_deployed := false, eks_outputs := none, cluster_ready := some false,
                cluster_context := none, essentials_deployed := some false,
                updated_at := env.now } = true := by
              simp [chainInv, truthy]
              have hx := h
              simp only [chainInv, Bool.and_eq_true] at hx
              simpa using hx.2
            have hpe : (down env s opts).persisted =
                [{ s with
                  eks_deployed := false, eks_outputs := none, cluster_ready := some false,
                  cluster_context := none, essentials_deployed := some false,
                  updated_at := env.now }] ++
                [{ s with
                  eks_deployed := false, eks_outputs := none, cluster_ready := some false,
                  cluster_context := none, essentials_deployed := some false,
                  updated_at := env.now }] := by
              simp [down, hek, hdf, hnc, hsd, destroyEksStep, hok,
                clearEphemeralState, saveState]
            intro p hp
            rw [hpe] at hp
            rcases List.mem_append.mp hp with hp | hp <;>
              (rw [List.mem_singleton] at hp
               subst hp
               exact hclear)
          · intro p hp
            simp [down, hek, hdf, hnc, hsd, destroyEksStep, hok] at hp


/-- C2: for every LabState persisted by any of the three commands
(`bootstrap`, `up`, `down`) started from a state satisfying the phase-flag
chain, the chain holds: `cluster_ready = true` implies `eks_deployed = true`
implies `foundation_deployed = true` implies `bootstrapped = true`; in
particular no persisted state ever has `cluster_ready = true` while
`foundation_deployed = false`. -/
theorem persisted_phase_chain (env : Env) (lab : String) (s : LabState)
    (comps : List String) (uopts : UpOptions) (bopts : BootstrapOptions)
    (dopts : DownOptions) (h : chainInv s = true) :
    (∀ p ∈ (bootstrap env s bopts).persisted, chainInv p = true) ∧
    (∀ p ∈ (up env lab s comps uopts).persisted, chainInv p = true) ∧
    (∀ p ∈ (down env s dopts).persisted, chainInv p = true) ∧
    (∀ p ∈ (bootstrap env s bopts).persisted,
      truthy p.cluster_ready = true → p.foundation_deployed = true) ∧
    (∀ p ∈ (up env lab s comps uopts).persisted,
      truthy p.cluster_ready = true → p.foundation_deployed = true) ∧
    (∀ p ∈ (down env s dopts).persisted,
      truthy p.cluster_ready = true → p.foundation_deployed = true) := by
  have hb := chain_bootstrap env s bopts h
  have hu := chain_up env lab s comps uopts h
  have hd := chain_down env s dopts h
  refine ⟨hb, hu, hd, ?_, ?_, ?_⟩
  · intro p hp hcr
    exact chainInv_eks p (hb p hp) (chainInv_cluster_ready p (hb p hp) hcr)
  · intro p hp hcr
    exact chainInv_eks p (hu p hp) (chainInv_cluster_ready p (hu p hp) hcr)
  · intro p hp hcr
    exact chainInv_eks p (hd p hp) (chainInv_cluster_ready p (hd p hp) hcr)

/-- Witness: the chain theorem at the concrete bootstrapped state and the
all-success environment. -/
theorem persisted_phase_chain_witness :
    (∀ p ∈ (bootstrap envAllOk freshState {}).persisted, chainInv p = true) ∧
    (∀ p ∈ (up envAllOk "demo" freshState [] {}).persisted, chainInv p = true) ∧
    (∀ p ∈ (down envAllOk freshState {}).persisted, chainInv p = true) ∧
    (∀ p ∈ (bootstrap envAllOk freshState {}).persisted,
      truthy p.cluster_ready = true → p.foundation_deployed = true) ∧
    (∀ p ∈ (up envAllOk "demo" freshState [] {}).persisted,
      truthy p.cluster_ready = true → p.foundation_deployed = true) ∧
    (∀ p ∈ (down envAllOk freshState {}).persisted,
      truthy p.cluster_ready = true → p.foundation_deployed = true) :=
  persisted_phase_chain envAllOk "demo" freshState [] {} {} {} rfl

end LabManager
